import Mathlib

/-!
Verification of the api_qedu report generator (src/gerador.py, src/app.py).

The Python program is shallowly embedded: floats are modelled as rationals,
JSON payloads as typed records with Option fields (none = absent key / null),
dicts as insertion-ordered association lists, and the network as an oracle
function passed explicitly.  String rendering follows the source f-strings,
with Python format specs modelled by explicit padding / fixed-point helpers
(round-half-even, as CPython does on decimal expansion of doubles).
-/

set_option maxHeartbeats 4000000
set_option maxRecDepth 10000

namespace ApiQedu

attribute [local semireducible] Rat.add Rat.mul Rat.sub Rat.inv Rat.ofScientific

/-! ## Generic string helpers (Python format-spec machinery).

    The embedding evaluates on concrete inputs through kernel reduction, so
    the few core String routines whose implementations do not reduce are
    re-implemented on the underlying character lists. -/

/-- Python whitespace test of str.strip (ASCII whitespace). -/
def isPyWs (c : Char) : Bool :=
  c == ' ' || c == '\t' || c == '\n' || c == '\r' ||
  c == Char.ofNat 11 || c == Char.ofNat 12

/-- Model of Python str.strip (and of String.trim on ASCII input). -/
def pyStrip (s : String) : String :=
  String.mk (((s.data.dropWhile isPyWs).reverse.dropWhile isPyWs).reverse)

/-- Fuel-based replacement of non-overlapping occurrences, left to right
    (Python str.replace; the pattern is never empty at the call sites). -/
def replaceFuel (pat rep : List Char) : ℕ → List Char → List Char
  | 0, l => l
  | _ + 1, [] => []
  | fuel + 1, c :: rest =>
    if List.isPrefixOf pat (c :: rest) && !pat.isEmpty then
      rep ++ replaceFuel pat rep fuel (List.drop (pat.length - 1) rest)
    else
      c :: replaceFuel pat rep fuel rest

/-- Model of Python str.replace. -/
def pyReplace (s pat rep : String) : String :=
  String.mk (replaceFuel pat.data rep.data s.data.length s.data)

/-- Fuel-based split on a non-empty separator (Python str.split(sep)). -/
def splitFuel (pat : List Char) : ℕ → List Char → List Char → List (List Char)
  | 0, cur, l => [cur.reverse ++ l]
  | _ + 1, cur, [] => [cur.reverse]
  | fuel + 1, cur, c :: rest =>
    if List.isPrefixOf pat (c :: rest) && !pat.isEmpty then
      cur.reverse :: splitFuel pat fuel [] (List.drop (pat.length - 1) rest)
    else
      splitFuel pat fuel (c :: cur) rest

/-- Model of Python str.split with a non-empty separator. -/
def pySplitOn (s pat : String) : List String :=
  (splitFuel pat.data s.data.length [] s.data).map String.mk

/-- Model of Python str.lower on the Latin letters of the inputs. -/
def pyLowerChar (c : Char) : Char :=
  if c.isUpper then c.toLower
  else if c = 'Á' then 'á' else if c = 'Â' then 'â' else if c = 'Ã' then 'ã'
  else if c = 'É' then 'é' else if c = 'Ê' then 'ê' else if c = 'Í' then 'í'
  else if c = 'Ó' then 'ó' else if c = 'Ô' then 'ô' else if c = 'Õ' then 'õ'
  else if c = 'Ú' then 'ú' else if c = 'Ç' then 'ç' else c

def pyLower (s : String) : String := String.mk (s.data.map pyLowerChar)

/-- Does the character list contain pat as a contiguous sublist. -/
def listHasSub (pat : List Char) : List Char → Bool
  | [] => List.isPrefixOf pat []
  | c :: rest => List.isPrefixOf pat (c :: rest) || listHasSub pat rest

/-- Boolean substring test on strings (models Python `needle in s`). -/
def strHasSub (s pat : String) : Bool := listHasSub pat.data s.data

/-- Propositional substring containment, convenient for texts containing
    symbolic parts. -/
def HasSub (s pat : String) : Prop := ∃ p q, s = p ++ (pat ++ q)

/-- First n characters of a string (used to scan a window of a long text). -/
def strTake (n : ℕ) (s : String) : String := String.mk (s.data.take n)

/-- String without its first n characters. -/
def strDrop (n : ℕ) (s : String) : String := String.mk (s.data.drop n)

/-- Spaces string of length n. -/
def spaces (n : ℕ) : String := String.mk (List.replicate n ' ')

/-- Python right-justification, format spec of shape  >w  (pads with spaces,
    keeps the string when it is already at least w characters long). -/
def padLeft (w : ℕ) (s : String) : String := spaces (w - s.length) ++ s

/-- Python left-justification, format spec of shape  <w . -/
def padRight (w : ℕ) (s : String) : String := s ++ spaces (w - s.length)

/-- Round to nearest integer, ties to even (CPython float formatting). -/
def pyRound (q : ℚ) : ℤ :=
  let f : ℤ := q.floor
  let r : ℚ := q - f
  if r < 1/2 then f
  else if 1/2 < r then f + 1
  else if f % 2 = 0 then f else f + 1

/-- Sign and digits of fixed-point formatting: Python format spec  .df  for
    d decimal places.  A negative value rounding to zero keeps its sign, as
    CPython renders the signed float zero. -/
def fmtParts (d : ℕ) (q : ℚ) : Bool × String :=
  let m : ℤ := pyRound (q * ((10 : ℚ) ^ d))
  let neg : Bool := m < 0 || (m == 0 && q < 0)
  let a : ℕ := m.natAbs
  let ip : ℕ := a / 10 ^ d
  let fp : ℕ := a % 10 ^ d
  let fps : String := toString fp
  let core : String :=
    if d = 0 then toString ip
    else toString ip ++ "." ++ (String.mk (List.replicate (d - fps.length) '0') ++ fps)
  (neg, core)

/-- Fixed-point formatting, Python format spec  .df . -/
def fmtFixed (d : ℕ) (q : ℚ) : String :=
  let p := fmtParts d q
  if p.1 then "-" ++ p.2 else p.2

/-- Signed fixed-point formatting, Python format spec  +.df . -/
def fmtSigned (d : ℕ) (q : ℚ) : String :=
  let p := fmtParts d q
  if p.1 then "-" ++ p.2 else "+" ++ p.2

/-- Group a reversed digit list in threes with commas (helper for fmtComma). -/
def groupThrees : List Char → List Char
  | a :: b :: c :: d :: rest => a :: b :: c :: ',' :: groupThrees (d :: rest)
  | l => l

/-- Python thousands-separator formatting of an integer, format spec  , . -/
def fmtComma (n : ℤ) : String :=
  let s := toString n.natAbs
  let r := String.mk (groupThrees s.data.reverse).reverse
  if n < 0 then "-" ++ r else r

/-- Decimal rendering of an integer (plain f-string interpolation). -/
def intStr (n : ℤ) : String := toString n

/-- Stable insertion keeping equal keys in arrival order. -/
def insertByKey {α : Type} (key : α → ℚ) (x : α) : List α → List α
  | [] => [x]
  | y :: ys => if key x < key y then x :: y :: ys else y :: insertByKey key x ys

/-- Stable sort by a rational key (models Python sorted / list.sort, which
    are stable). -/
def stableSortBy {α : Type} (key : α → ℚ) (l : List α) : List α :=
  l.foldl (fun acc x => insertByKey key x acc) []

/-- Lookup in an insertion-ordered association list (Python dict get). -/
def assocGet {κ α : Type} [BEq κ] (m : List (κ × α)) (k : κ) : Option α :=
  match m.find? (fun p => p.1 == k) with
  | some p => some p.2
  | none => none

/-- Update/insert in an insertion-ordered association list (Python dict set:
    an existing key keeps its position, a new key goes to the end). -/
def assocSet {κ α : Type} [BEq κ] : List (κ × α) → κ → α → List (κ × α)
  | [], k, v => [(k, v)]
  | (k2, v2) :: rest, k, v =>
      if k2 == k then (k2, v) :: rest else (k2, v2) :: assocSet rest k v

/-- Python truthiness of an optional number ( if v ... ). -/
def optTruthy (v : Option ℚ) : Bool :=
  match v with
  | some q => q != 0
  | none => false

/-! ## HTTP fetch cache (gerador.py lines 149-172)

    _FETCH_CACHE maps (url, sorted parameter tuple) keys to results; a stored
    none models the Python None cached after retries are exhausted.  The
    network is an oracle from the key and the attempt index to the response
    (none = request exception). -/

/-- Per-run fetch cache: association list from key to cached result. -/
def FetchCache (κ α : Type) := List (κ × Option α)

/-- Model of _clear_cache (gerador.py line 152). -/
def clearCache {κ α : Type} (_c : FetchCache κ α) : FetchCache κ α := []

/-- Cache membership test plus stored value, modelling
     cache_key in _FETCH_CACHE  followed by the dict read. -/
def cacheLookup {κ α : Type} [DecidableEq κ] :
    FetchCache κ α → κ → Option (Option α)
  | [], _ => none
  | (k2, v) :: rest, k => if k2 = k then some v else cacheLookup rest k

/-- Retry loop of fetch_json: attempts i, i+1, ... while n attempts remain.
    Returns the first successful response and the number of requests issued. -/
def fetchLoop {α : Type} (net : ℕ → Option α) (i : ℕ) : ℕ → Option α × ℕ
  | 0 => (none, 0)
  | n + 1 =>
    match net i with
    | some r => (some r, 1)
    | none =>
      if n = 0 then (none, 1)
      else
        let p := fetchLoop net (i + 1) n
        (p.1, p.2 + 1)

/-- Model of fetch_json (gerador.py lines 156-172): consult the cache, else
    run the retry loop, caching the outcome (including a final-failure None).
    Returns (result, cache after the call, number of network requests). -/
def fetchJson {κ α : Type} [DecidableEq κ] (net : κ → ℕ → Option α)
    (cache : FetchCache κ α) (key : κ) (tentativas : ℕ) :
    Option α × FetchCache κ α × ℕ :=
  match cacheLookup cache key with
  | some v => (v, cache, 0)
  | none =>
    if tentativas = 0 then (none, cache, 0)
    else
      let p := fetchLoop (net key) 0 tentativas
      (p.1, (key, p.1) :: cache, p.2)

/-- Cache-free canonical value of a fetch: what fetch_json returns for a key
    the first time it is asked in a run (with the default 3 attempts). -/
def canonicalFetch {κ α : Type} (net : κ → ℕ → Option α) (key : κ) : Option α :=
  (fetchLoop (net key) 0 3).1

/-- A cache is consistent with the network when every stored value is the
    canonical value of its key. -/
def CacheConsistent {κ α : Type} [DecidableEq κ] (net : κ → ℕ → Option α)
    (c : FetchCache κ α) : Prop :=
  ∀ k v, cacheLookup c k = some v → v = canonicalFetch net k

/-! ## Constants and configuration (gerador.py lines 44-124) -/

/-- The apostrophe character, kept out of string literals. -/
def apos : Char := Char.ofNat 39

def strApos : String := String.mk [apos]

def LINE : String := String.mk (List.replicate 80 '=')

def SUBLINE : String := String.mk (List.replicate 80 '-')

/-- Python expression  "*" * 80 , used inline by the renderers. -/
def STARS : String := String.mk (List.replicate 80 '*')

def BASE_URL : String := "https://qedu.org.br/api/v1"

def CICLOS : List (String × String) :=
  [("AI", "Anos Iniciais (1º ao 5º)"),
   ("AF", "Anos Finais (6º ao 9º)"),
   ("EM", "Ensino Médio")]

def DISCIPLINAS : List (String × String) :=
  [("lp", "Língua Portuguesa"), ("mt", "Matemática")]

def NIVEIS : List (String × String) :=
  [("adequado",    "Adequado (Proficiente + Avançado)"),
   ("avancado",    "Avançado"),
   ("proficiente", "Proficiente"),
   ("basico",      "Básico"),
   ("insuficiente","Insuficiente")]

def ITENS_INFRA_RELEVANTES : List String :=
  ["Biblioteca*", "Láb. Informática", "Láb. Ciências",
   "Sala de Leitura", "Quadra de Esportes", "Internet", "Banda Larga"]

def CAMPOS_MATRICULA : List (String × String) :=
  [("matriculas_creche",            "Creche"),
   ("matriculas_pre_escolar",       "Pré-Escola"),
   ("matriculas_anos_iniciais",     "Anos Iniciais (1º ao 5º)"),
   ("matriculas_anos_finais",       "Anos Finais (6º ao 9º)"),
   ("matriculas_ensino_medio",      "Ensino Médio"),
   ("matriculas_eja",               "EJA"),
   ("matriculas_educacao_especial", "Educação Especial")]

def CAMPOS_SERIES : List (String × String × String) :=
  [("matriculas_1ano", "1º Ano", "Anos Iniciais"),
   ("matriculas_2ano", "2º Ano", "Anos Iniciais"),
   ("matriculas_3ano", "3º Ano", "Anos Iniciais"),
   ("matriculas_4ano", "4º Ano", "Anos Iniciais"),
   ("matriculas_5ano", "5º Ano", "Anos Iniciais"),
   ("matriculas_6ano", "6º Ano", "Anos Finais"),
   ("matriculas_7ano", "7º Ano", "Anos Finais"),
   ("matriculas_8ano", "8º Ano", "Anos Finais"),
   ("matriculas_9ano", "9º Ano", "Anos Finais")]

def SEGMENTOS_DISPLAY : List (String × String) :=
  [("anos iniciais", "ANOS INICIAIS"),
   ("anos finais",   "ANOS FINAIS"),
   ("ensino medio",  "ENSINO MEDIO")]

def UF_CODES : List (String × String × String) :=
  [("11", "Rondônia", "RO"), ("12", "Acre", "AC"), ("13", "Amazonas", "AM"),
   ("14", "Roraima", "RR"), ("15", "Pará", "PA"), ("16", "Amapá", "AP"),
   ("17", "Tocantins", "TO"), ("21", "Maranhão", "MA"), ("22", "Piauí", "PI"),
   ("23", "Ceará", "CE"), ("24", "Rio Grande do Norte", "RN"),
   ("25", "Paraíba", "PB"), ("26", "Pernambuco", "PE"), ("27", "Alagoas", "AL"),
   ("28", "Sergipe", "SE"), ("29", "Bahia", "BA"), ("31", "Minas Gerais", "MG"),
   ("32", "Espírito Santo", "ES"), ("33", "Rio de Janeiro", "RJ"),
   ("35", "São Paulo", "SP"), ("41", "Paraná", "PR"), ("42", "Santa Catarina", "SC"),
   ("43", "Rio Grande do Sul", "RS"), ("50", "Mato Grosso do Sul", "MS"),
   ("51", "Mato Grosso", "MT"), ("52", "Goiás", "GO"), ("53", "Distrito Federal", "DF")]

/-- Lookup in the UF map. -/
def ufLookup (code : String) : Option (String × String) :=
  match UF_CODES.find? (fun p => p.1 == code) with
  | some p => some p.2
  | none => none

/-- Model of is_estado (gerador.py line 122). -/
def is_estado (codigo : String) : Bool := (ufLookup (pyStrip codigo)).isSome

/-! ## Dynamic year detection (gerador.py lines 130-143).
    ANO_ATUAL = datetime.now().year is a run parameter of the model. -/

/-- Model of _anos_candidatos: the current year and the n-1 years before it,
    newest first. -/
def _anos_candidatos (anoAtual : ℤ) (n : ℕ) : List ℤ :=
  (List.range n).map (fun i => anoAtual - i)

/-- Model of _anos_saeb: biennial odd years, newest first.  (This helper is
    defined in the source but never called by any other function.) -/
def _anos_saeb (anoAtual : ℤ) : List ℤ :=
  let a := if anoAtual % 2 == 1 then anoAtual else anoAtual - 1
  (List.range 5).map (fun i => a - 2 * i)

/-! ## Value formatting (gerador.py lines 398-423) -/

/-- Model of _pct: percentage display with the ≤ 1.01 scaling rule. -/
def _pct (v : Option ℚ) : String :=
  match v with
  | none => "sem dados"
  | some x => fmtFixed 1 (if |x| ≤ 1.01 then x * 100 else x) ++ "%"

/-- Model of _pp: signed percentage-point display. -/
def _pp (v : Option ℚ) (decimais : ℕ) : String :=
  match v with
  | none => "sem dados"
  | some x => fmtSigned decimais (if |x| ≤ 1.01 then x * 100 else x) ++ "pp"

/-- Model of _val with the default format ".2f" generalised to d decimals.
    The none case models a Python None argument. -/
def _val (v : Option ℚ) (d : ℕ) : String :=
  match v with
  | none => "N/D"
  | some x => fmtFixed d x

/-- Rendering of a CSV float cell through _val: a NaN (modelled none, as
    produced by pd.to_numeric coercion of a non-number) is not None, so the
    source prints it as the float string "nan". -/
def valCell (v : Option ℚ) (d : ℕ) : String :=
  match v with
  | none => "nan"
  | some x => fmtFixed d x

/-- Model of _slug (gerador.py line 419). -/
def _slug (nome : String) : String :=
  pyReplace (pyReplace (pyReplace (pyReplace (pyReplace (pyReplace (pyReplace
    (pyReplace (pyReplace (pyReplace (pyReplace (pyReplace nome " " "_")
    strApos "") "/" "_") "ã" "a") "é" "e") "ç" "c") "í" "i") "ó" "o")
    "ú" "u") "â" "a") "ê" "e") "ô" "o"

/-! ## Header / footer (gerador.py lines 429-441).
    geradoEm models datetime.now().strftime applied at render time. -/

def optLine (prefix2 : String) (v : Option String) : String :=
  match v with
  | none => ""
  | some s => prefix2 ++ s ++ "\n"

/-- Model of _hdr; the kwargs rede/ciclo/ano/periodo become optional
    arguments (ano already rendered to a string by the caller). -/
def _hdr (titulo mun : String) (geradoEm : String)
    (rede ciclo ano periodo : Option String) : String :=
  LINE ++ "\n" ++ titulo ++ "\n" ++ LINE ++ "\n\n" ++
  "📍 Território: " ++ mun ++ "\n" ++
  optLine "🏫 Rede: " rede ++
  optLine "📚 Ciclo: " ciclo ++
  optLine "📅 Ano de referência: " ano ++
  optLine "📅 Período histórico: " periodo ++
  "📅 Gerado em: " ++ geradoEm ++ "\n"

/-- Model of _footer. -/
def _footer (fonte : String) : String :=
  "\n\n" ++ LINE ++ "\nFonte: " ++ fonte ++ "\n" ++ LINE ++ "\n"

/-! ## Classifiers (gerador.py lines 450-459 and 1250-1277) -/

/-- Model of _classificar_desempenho: note the source compares
    pct_adequado <= 1 (no absolute value, threshold 1, not 1.01). -/
def _classificar_desempenho (pct_adequado : Option ℚ) : String × String :=
  match pct_adequado with
  | none => ("Dados não disponíveis", "⚪")
  | some x =>
    let p := if x ≤ 1 then x * 100 else x
    if 70 ≤ p then ("Bom desempenho", "✅")
    else if 50 ≤ p then ("Desempenho intermediário", "⚠️")
    else ("Desempenho crítico - oportunidade de atuação", "🔴")

/-- Model of _classificar_taxa. -/
def _classificar_taxa (valor : Option ℚ) (tipo : String) : String × String :=
  match valor with
  | none => ("Sem dados", "⚪")
  | some x =>
    let v := if |x| ≤ 1.01 then x * 100 else x
    if tipo == "aprovacao" then
      if 98 ≤ v then ("Excelente", "✅")
      else if 95 ≤ v then ("Bom", "🟢")
      else if 90 ≤ v then ("Regular", "🟡")
      else ("Crítico", "🔴")
    else if tipo == "reprovacao" then
      if v ≤ 1 then ("Excelente", "✅")
      else if v ≤ 3 then ("Bom", "🟢")
      else if v ≤ 5 then ("Regular", "🟡")
      else ("Crítico", "🔴")
    else
      if v ≤ 0.5 then ("Excelente", "✅")
      else if v ≤ 1.5 then ("Bom", "🟢")
      else if v ≤ 3 then ("Regular", "🟡")
      else ("Crítico", "🔴")

/-- Model of _safe_taxa (gerador.py line 1272). -/
def _safe_taxa (v : Option ℚ) : String :=
  match v with
  | none => "sem dados"
  | some x => fmtFixed 1 (if |x| ≤ 1.01 then x * 100 else x) ++ "%"

/-! ## Spec-side definitions for the normalization claims (C3, C4).
    These follow the specification words, for comparison against the source
    models above. -/

/-- Spec-side normalization rule: multiply by 100 exactly when the absolute
    value is at most 1.01 (spec section 4). -/
def specNorm (v : ℚ) : ℚ := if |v| ≤ 1.01 then v * 100 else v

/-- Spec-side desempenho classifier: what _classificar_desempenho would be
    if it applied specNorm, as claim C3 asserts. -/
def classificarDesempenhoSpec (pct_adequado : Option ℚ) : String × String :=
  match pct_adequado with
  | none => ("Dados não disponíveis", "⚪")
  | some x =>
    let p := specNorm x
    if 70 ≤ p then ("Bom desempenho", "✅")
    else if 50 ≤ p then ("Desempenho intermediário", "⚠️")
    else ("Desempenho crítico - oportunidade de atuação", "🔴")

/-- The desempenho threshold table on an already-normalized percentage. -/
def desempenhoTiers (p : ℚ) : String × String :=
  if 70 ≤ p then ("Bom desempenho", "✅")
  else if 50 ≤ p then ("Desempenho intermediário", "⚠️")
  else ("Desempenho crítico - oportunidade de atuação", "🔴")

/-- The taxa threshold tables on an already-normalized percentage. -/
def taxaTiers (tipo : String) (v : ℚ) : String × String :=
  if tipo == "aprovacao" then
    if 98 ≤ v then ("Excelente", "✅")
    else if 95 ≤ v then ("Bom", "🟢")
    else if 90 ≤ v then ("Regular", "🟡")
    else ("Crítico", "🔴")
  else if tipo == "reprovacao" then
    if v ≤ 1 then ("Excelente", "✅")
    else if v ≤ 3 then ("Bom", "🟢")
    else if v ≤ 5 then ("Regular", "🟡")
    else ("Crítico", "🔴")
  else
    if v ≤ 0.5 then ("Excelente", "✅")
    else if v ≤ 1.5 then ("Bom", "🟢")
    else if v ≤ 3 then ("Regular", "🟡")
    else ("Crítico", "🔴")

/-! ## Trend slope (gerador.py lines 1003-1012) -/

/-- Degree-1 np.polyfit slope in normal-equation form (the float numerics of
    numpy are idealised to exact rational least squares). -/
def polyfitSlope (xs ys : List ℚ) : ℚ :=
  let n : ℚ := xs.length
  let sx := xs.sum
  let sy := ys.sum
  let sxy := ((xs.zip ys).map (fun p => p.1 * p.2)).sum
  let sxx := (xs.map (fun x => x * x)).sum
  (n * sxy - sx * sy) / (n * sxx - sx * sx)

/-- Model of _trend_slope; npAvailable models the module-level  np  import
    guard.  Out-of-range indexing (empty valores) is defaulted, matching the
    callers which always pass equal-length lists. -/
def _trend_slope (npAvailable : Bool) (anos valores : List ℚ) : ℚ :=
  if npAvailable && decide (2 ≤ anos.length) then polyfitSlope anos valores
  else if 2 ≤ anos.length then
    (valores.getLastD 0 - valores.headD 0) / (anos.getLastD 0 - anos.headD 0)
  else 0

/-- Spec-side least-squares regression slope, in centered covariance form
    ("linear regression over (year, value) pairs"). -/
def leastSquaresSlope (xs ys : List ℚ) : ℚ :=
  let n : ℚ := xs.length
  let xbar := xs.sum / n
  let ybar := ys.sum / n
  let sxy := ((xs.zip ys).map (fun p => (p.1 - xbar) * (p.2 - ybar))).sum
  let sxx := (xs.map (fun x => (x - xbar) * (x - xbar))).sum
  sxy / sxx

/-! ## HTTP boundary validation (app.py lines 54-103) -/

/-- Python str.isdigit restricted to ASCII digits (the source may also accept
    some exotic Unicode digit characters; all IBGE codes are ASCII). -/
def pyIsdigit (s : String) : Bool := !s.isEmpty && s.data.all Char.isDigit

/-- Model of _validar_ibge: ok with the stripped code, or a (message, status)
    error pair. -/
def _validar_ibge (ibge : String) : Except (String × ℕ) String :=
  let i := pyStrip ibge
  if !(pyIsdigit i && (i.length == 2 || i.length == 7)) then
    .error ("Código IBGE inválido: " ++ strApos ++ i ++ strApos ++
            ". Use 7 dígitos (município) ou 2 dígitos (estado).", 400)
  else
    .ok i

/-- Model of _gerar: validate, then run the generator (whose exceptions map
    to a 500 error).  The generator is a parameter, so that rejection before
    any generation/network work is expressed as independence from it.  The
    success-path response shaping (report-kind filtering) is presentation
    only and not needed by the claims. -/
def _gerar {β : Type} (gen : String → Except String β) (ibge : String) :
    (String × ℕ) ⊕ β :=
  match _validar_ibge ibge with
  | .error e => .inl e
  | .ok i =>
    match gen i with
    | .error e => .inl ("Erro ao gerar: " ++ e, 500)
    | .ok b => .inr b

/-! ## API payload model.

    JSON dictionaries returned by the QEdu API are modelled as records whose
    Option fields are none when the key is absent (or null).  Lists keep
    their JSON order. -/

structure TerrParent where
  sigla : Option String := none
deriving Repr, DecidableEq

structure Territorio where
  ibge_id : Option ℤ := none
  parent_id : Option ℤ := none
  nome : Option String := none
  sigla : Option String := none
  parent : Option TerrParent := none
deriving Repr, DecidableEq

/-- Aprendizado (SAEB) record: one territory in one year, with the ten
    lp_/mt_ level fields accessed dynamically by the source. -/
structure ARec where
  territorio : Option Territorio := none
  ano : Option ℤ := none
  lp_adequado : Option ℚ := none
  lp_avancado : Option ℚ := none
  lp_proficiente : Option ℚ := none
  lp_basico : Option ℚ := none
  lp_insuficiente : Option ℚ := none
  mt_adequado : Option ℚ := none
  mt_avancado : Option ℚ := none
  mt_proficiente : Option ℚ := none
  mt_basico : Option ℚ := none
  mt_insuficiente : Option ℚ := none
deriving Repr, DecidableEq

/-- Dynamic field access  r.get(f"(disc)_(niv)")  of the source. -/
def ARec.getNivel (r : ARec) (disc niv : String) : Option ℚ :=
  if disc == "lp" then
    if niv == "adequado" then r.lp_adequado
    else if niv == "avancado" then r.lp_avancado
    else if niv == "proficiente" then r.lp_proficiente
    else if niv == "basico" then r.lp_basico
    else if niv == "insuficiente" then r.lp_insuficiente
    else none
  else if disc == "mt" then
    if niv == "adequado" then r.mt_adequado
    else if niv == "avancado" then r.mt_avancado
    else if niv == "proficiente" then r.mt_proficiente
    else if niv == "basico" then r.mt_basico
    else if niv == "insuficiente" then r.mt_insuficiente
    else none
  else none

/-- School-census payload (the "censo" entry of the response). -/
structure CensoData where
  qtd_escolas : Option ℤ := none
  matriculas_creche : Option ℤ := none
  matriculas_pre_escolar : Option ℤ := none
  matriculas_pre_escola : Option ℤ := none
  matriculas_anos_iniciais : Option ℤ := none
  matriculas_anos_finais : Option ℤ := none
  matriculas_ensino_medio : Option ℤ := none
  matriculas_eja : Option ℤ := none
  matriculas_educacao_especial : Option ℤ := none
  matriculas_1ano : Option ℤ := none
  matriculas_2ano : Option ℤ := none
  matriculas_3ano : Option ℤ := none
  matriculas_4ano : Option ℤ := none
  matriculas_5ano : Option ℤ := none
  matriculas_6ano : Option ℤ := none
  matriculas_7ano : Option ℤ := none
  matriculas_8ano : Option ℤ := none
  matriculas_9ano : Option ℤ := none
  territorio : Option Territorio := none
deriving Repr, DecidableEq

/-- Dynamic field access  c.get(campo)  over the census matriculas keys. -/
def CensoData.get (c : CensoData) (campo : String) : Option ℤ :=
  if campo == "matriculas_creche" then c.matriculas_creche
  else if campo == "matriculas_pre_escolar" then c.matriculas_pre_escolar
  else if campo == "matriculas_pre_escola" then c.matriculas_pre_escola
  else if campo == "matriculas_anos_iniciais" then c.matriculas_anos_iniciais
  else if campo == "matriculas_anos_finais" then c.matriculas_anos_finais
  else if campo == "matriculas_ensino_medio" then c.matriculas_ensino_medio
  else if campo == "matriculas_eja" then c.matriculas_eja
  else if campo == "matriculas_educacao_especial" then c.matriculas_educacao_especial
  else if campo == "matriculas_1ano" then c.matriculas_1ano
  else if campo == "matriculas_2ano" then c.matriculas_2ano
  else if campo == "matriculas_3ano" then c.matriculas_3ano
  else if campo == "matriculas_4ano" then c.matriculas_4ano
  else if campo == "matriculas_5ano" then c.matriculas_5ano
  else if campo == "matriculas_6ano" then c.matriculas_6ano
  else if campo == "matriculas_7ano" then c.matriculas_7ano
  else if campo == "matriculas_8ano" then c.matriculas_8ano
  else if campo == "matriculas_9ano" then c.matriculas_9ano
  else none

/-- Census response: the "censo" field is none when the key is absent or its
    dictionary is empty (both are falsy in the source year-fallback test). -/
structure CensoResp where
  censo : Option CensoData := none
deriving Repr, DecidableEq

structure InfraVal where
  entidade : String
  value : Option ℚ := none
deriving Repr, DecidableEq

structure InfraItem where
  label : String
  values : List InfraVal
deriving Repr, DecidableEq

structure InfraSec where
  items : List InfraItem
deriving Repr, DecidableEq

/-- Rate payload inner record ("rendimento" value or the flat record). -/
structure Rendimento where
  aprovados : Option ℚ := none
  reprovados : Option ℚ := none
  abandonos : Option ℚ := none
  territorio : Option Territorio := none
deriving Repr, DecidableEq

/-- Rate record: the source reads reg.get("rendimento", reg), so the fields
    may sit under a "rendimento" key or inline. -/
structure TRec where
  ano : Option ℤ := none
  rendimento : Option Rendimento := none
  inline : Rendimento := {}
deriving Repr, DecidableEq

/-- Model of  reg.get("rendimento", reg) . -/
def TRec.rend (r : TRec) : Rendimento := r.rendimento.getD r.inline

/-- Raw taxa-rendimento response before key normalization. -/
structure TaxaRaw where
  entidade : Option (List TRec) := none
  municipio : Option (List TRec) := none
  parent : Option (List TRec) := none
  estado : Option (List TRec) := none
  brasil : Option (List TRec) := none
deriving Repr, DecidableEq

/-- Python truthiness of an optional list (absent, null and [] are falsy). -/
def listTruthy {α : Type} (v : Option (List α)) : Bool :=
  match v with
  | some (_ :: _) => true
  | _ => false

/-- Python  a or b or []  over optional record lists. -/
def orT (a b : Option (List TRec)) : List TRec :=
  if listTruthy a then a.getD []
  else if listTruthy b then b.getD []
  else []

/-- Normalized taxa keys (model of _normalizar_taxa_keys, lines 205-217). -/
structure TaxaNorm where
  municipio : List TRec
  estado : List TRec
  brasil : List TRec
deriving Repr, DecidableEq

def _normalizar_taxa_keys (d : TaxaRaw) : TaxaNorm :=
  { municipio := orT d.entidade d.municipio
  , estado := orT d.parent d.estado
  , brasil := if listTruthy d.brasil then d.brasil.getD [] else [] }

/-! ## Network oracle and request traces.

    fetch_json is deterministic per (url, params) key within a run (fetchJson
    above with the canonical-value lemma), so the endpoint wrappers are
    modelled over a pure oracle from the request parameters to the decoded
    response; they also return the list of distinct request keys they issue,
    used by the year-fallback claims. -/

inductive PV where
  | i (n : ℤ)
  | s (v : String)
deriving Repr, DecidableEq

structure Req where
  url : String
  params : List (String × PV)
deriving Repr, DecidableEq

structure Net where
  censo : String → ℤ → ℤ → ℤ → ℤ → Option CensoResp
  infra : String → ℤ → ℤ → Option (List InfraSec)
  aprendizado : String → ℤ → String → Option (List (List ARec))
  taxa : String → ℤ → ℤ → String → ℤ → Option TaxaRaw

/-- A network on which every fetch yields no data. -/
def noDataNet : Net :=
  { censo := fun _ _ _ _ _ => none
  , infra := fun _ _ _ => none
  , aprendizado := fun _ _ _ => none
  , taxa := fun _ _ _ _ _ => none }

def censoReq (ibge : String) (a dep loc oferta : ℤ) : Req :=
  ⟨BASE_URL ++ "/censo/territorios/matriculas",
   [("ibge_id", .s ibge), ("ano", .i a), ("dependencia_id", .i dep),
    ("localizacao_id", .i loc), ("oferta_id", .i oferta)]⟩

def infraReq (ibge : String) (dep a : ℤ) : Req :=
  ⟨BASE_URL ++ "/infra/" ++ ibge ++ "/comparativo",
   [("dependencia_id", .i dep), ("ano", .i a)]⟩

def aprendReq (ibge : String) (dep : ℤ) (ciclo : String) : Req :=
  ⟨BASE_URL ++ "/aprendizado/" ++ ibge ++ "/ultimos-comparativo",
   [("dependencia_id", .i dep), ("ciclo_id", .s ciclo)]⟩

def taxaReq (ibge : String) (dep a : ℤ) (ciclo : String) (loc : ℤ) : Req :=
  ⟨BASE_URL ++ "/taxa-rendimento/taxa-rendimento/" ++ ibge ++ "/comparacao",
   [("dependencia_id", .i dep), ("ano", .i a), ("ciclo_id", .s ciclo),
    ("localizacao_id", .i loc)]⟩

/-! ## Year-fallback fetchers (gerador.py lines 178-252) -/

/-- Python  [ano] if ano else _anos_candidatos() : a None or zero year means
    the candidate window. -/
def anoListArg (anoAtual : ℤ) (ano : Option ℤ) : List ℤ :=
  match ano with
  | some a => if a != 0 then [a] else _anos_candidatos anoAtual 6
  | none => _anos_candidatos anoAtual 6

/-- Year loop of fetch_censo. -/
def fetchCensoLoop (net : Net) (ibge : String) (dep loc oferta : ℤ) :
    List ℤ → (Option CensoResp × ℤ) × List Req
  | [] => ((none, 0), [])
  | a :: rest =>
    let req := censoReq ibge a dep loc oferta
    match net.censo ibge a dep loc oferta with
    | some resp =>
      if resp.censo.isSome then ((some resp, a), [req])
      else
        let r := fetchCensoLoop net ibge dep loc oferta rest
        (r.1, req :: r.2)
    | none =>
      let r := fetchCensoLoop net ibge dep loc oferta rest
      (r.1, req :: r.2)

/-- Model of fetch_censo (lines 178-185). -/
def fetch_censo (net : Net) (anoAtual : ℤ) (ibge : String) (dep : ℤ)
    (ano : Option ℤ) (loc oferta : ℤ) : (Option CensoResp × ℤ) × List Req :=
  fetchCensoLoop net ibge dep loc oferta (anoListArg anoAtual ano)

/-- The non-empty test of fetch_infra: some section item carries values. -/
def infraHasValues (l : List InfraSec) : Bool :=
  l.any (fun s => s.items.any (fun it => !it.values.isEmpty))

/-- Year loop of fetch_infra. -/
def fetchInfraLoop (net : Net) (ibge : String) (dep : ℤ) :
    List ℤ → (Option (List InfraSec) × ℤ) × List Req
  | [] => ((none, 0), [])
  | a :: rest =>
    let req := infraReq ibge dep a
    match net.infra ibge dep a with
    | some l =>
      if infraHasValues l then ((some l, a), [req])
      else
        let r := fetchInfraLoop net ibge dep rest
        (r.1, req :: r.2)
    | none =>
      let r := fetchInfraLoop net ibge dep rest
      (r.1, req :: r.2)

/-- Model of fetch_infra (lines 188-197). -/
def fetch_infra (net : Net) (anoAtual : ℤ) (ibge : String) (dep : ℤ)
    (ano : Option ℤ) : (Option (List InfraSec) × ℤ) × List Req :=
  fetchInfraLoop net ibge dep (anoListArg anoAtual ano)

/-- Model of fetch_aprendizado (lines 200-202): a single request against the
    ultimos-comparativo endpoint; no year parameter and no year fallback. -/
def fetch_aprendizado (net : Net) (ibge : String) (dep : ℤ) (ciclo : String) :
    Option (List (List ARec)) × List Req :=
  (net.aprendizado ibge dep ciclo, [aprendReq ibge dep ciclo])

/-- The non-empty test of fetch_taxa on the raw response. -/
def taxaTruthy (d : TaxaRaw) : Bool :=
  listTruthy d.entidade || listTruthy d.municipio || listTruthy d.brasil

/-- Real-year detection of fetch_taxa: the greatest truthy ano over all
    normalized record lists (dict value order municipio, estado, brasil). -/
def taxaAnoReal (n : TaxaNorm) : ℤ :=
  (n.municipio ++ n.estado ++ n.brasil).foldl
    (fun acc r =>
      match r.ano with
      | some ra => if ra != 0 && acc < ra then ra else acc
      | none => acc) 0

/-- Year loop of fetch_taxa. -/
def fetchTaxaLoop (net : Net) (ibge : String) (dep : ℤ) (ciclo : String)
    (loc : ℤ) : List ℤ → (Option TaxaNorm × ℤ) × List Req
  | [] => ((none, 0), [])
  | a :: rest =>
    let req := taxaReq ibge dep a ciclo loc
    match net.taxa ibge dep a ciclo loc with
    | some d =>
      if taxaTruthy d then
        let norm := _normalizar_taxa_keys d
        let anoReal := taxaAnoReal norm
        ((some norm, if anoReal != 0 then anoReal else a), [req])
      else
        let r := fetchTaxaLoop net ibge dep ciclo loc rest
        (r.1, req :: r.2)
    | none =>
      let r := fetchTaxaLoop net ibge dep ciclo loc rest
      (r.1, req :: r.2)

/-- Model of fetch_taxa (lines 220-237). -/
def fetch_taxa (net : Net) (anoAtual : ℤ) (ibge : String) (ciclo : String)
    (dep : ℤ) (ano : Option ℤ) (loc : ℤ) : (Option TaxaNorm × ℤ) × List Req :=
  fetchTaxaLoop net ibge dep ciclo loc (anoListArg anoAtual ano)

/-! ## Aprendizado record extraction (gerador.py lines 462-493) -/

/-- Python str() of an optional int (str(None) = "None"). -/
def pyStrOptInt (v : Option ℤ) : String :=
  match v with
  | some n => toString n
  | none => "None"

/-- Model of _adeq: explicit adequado, else proficiente + avançado when at
    least one is present (Python  (vp or 0) + (va or 0) ). -/
def _adeq (rec : ARec) (disc : String) : Option ℚ :=
  match rec.getNivel disc "adequado" with
  | some v => some v
  | none =>
    let vp := rec.getNivel disc "proficiente"
    let va := rec.getNivel disc "avancado"
    if vp.isSome || va.isSome then some (vp.getD 0 + va.getD 0)
    else none

/-- Model of _extrair_territorios: split records into own territory, state
    peers (parent_id ≤ 27) and Brazil (ibge_id 7), keeping response order. -/
def _extrair_territorios (dados : Option (List (List ARec))) (ibge : String) :
    List ARec × List ARec × List ARec :=
  match dados with
  | none => ([], [], [])
  | some grupos =>
    grupos.foldl (fun acc grupo =>
      grupo.foldl (fun acc r =>
        let rid := r.territorio.bind (fun t => t.ibge_id)
        let pid := r.territorio.bind (fun t => t.parent_id)
        if pyStrOptInt rid == ibge then (acc.1 ++ [r], acc.2.1, acc.2.2)
        else if rid == some 7 then (acc.1, acc.2.1, acc.2.2 ++ [r])
        else
          match pid with
          | some p => if p ≤ 27 then (acc.1, acc.2.1 ++ [r], acc.2.2) else acc
          | none => acc) acc) ([], [], [])

/-! ## Taxa record helpers (gerador.py lines 1280-1304) -/

/-- Model of _get_rendimento. -/
def _get_rendimento (reg : TRec) : Option ℚ × Option ℚ × Option ℚ :=
  let r := reg.rend
  (r.aprovados, r.reprovados, r.abandonos)

/-- Model of _get_ultimo_reg: last record by year (stable sort). -/
def _get_ultimo_reg (regs : List TRec) : Option TRec :=
  match regs with
  | [] => none
  | _ => (stableSortBy (fun x => ((x.ano.getD 0 : ℤ) : ℚ)) regs).getLast?

/-- Model of _get_nome_estado. -/
def _get_nome_estado (dados : TaxaNorm) : String :=
  match dados.estado with
  | [] => "Estado"
  | r :: _ => ((r.rend).territorio.bind (fun t => t.nome)).getD "Estado"

/-! ## IDEB reference tables (gerador.py lines 258-334).

    The two CSV files are modelled as row lists already carrying the
    lower-cased column names and the valor→valor_numerico rename; a none
    valor_numerico models the NaN produced by pd.to_numeric coercion. -/

structure IdebRow where
  codigo_ibge : String
  indicador_municipio : String
  indicador_uf : String
  esfera : String
  segmento : String
  indicador_tipo_nome : String
  ano : ℤ
  valor_numerico : Option ℚ
deriving Repr, DecidableEq

/-- Model of _normalizar_segmento (lines 258-268); Python str.lower is
    modelled on ASCII (the accented letters relevant here are already
    lower-case in the tables). -/
def _normalizar_segmento (s : String) : String :=
  let s1 := pyLower (pyStrip s)
  let s2 := pyReplace (pyReplace (pyReplace (pyReplace s1 "ã" "a") "é" "e") "í" "i") "ê" "e"
  let s3 :=
    if strHasSub s2 "medio" && !(strHasSub s2 "ensino") then
      pyReplace (pyReplace s2 "ensino médio" "ensino medio") "medio" "ensino medio"
    else s2
  let s4 := pyReplace (pyReplace (pyReplace s3 "ano iniciais" "anos iniciais")
    "anos inicias" "anos iniciais") "ano finais" "anos finais"
  pyStrip s4

/-- National per-(indicator, year, segment) statistics from the state table.
    The source also aggregates std/min/max via pandas; only mean, median and
    count are ever read downstream (std is irrational in general and is
    omitted from the rational model). -/
structure BrasilStat where
  indicador_tipo_nome : String
  ano : ℤ
  segmento : String
  mean : Option ℚ
  median : Option ℚ
  count : ℕ
deriving Repr, DecidableEq

/-- First-occurrence deduplication (used for group keys; pandas sorts group
    keys, but every downstream read filters by a full exact key, so the
    group order is not observable). -/
def dedupFirst {α : Type} [DecidableEq α] (l : List α) : List α :=
  l.foldl (fun acc x => if x ∈ acc then acc else acc ++ [x]) []

def listMean (l : List ℚ) : Option ℚ :=
  if l.isEmpty then none else some (l.sum / l.length)

def listMedian (l : List ℚ) : Option ℚ :=
  let s := stableSortBy id l
  let n := s.length
  if n = 0 then none
  else if n % 2 = 1 then s.get? (n / 2)
  else
    match s.get? (n / 2 - 1), s.get? (n / 2) with
    | some a, some b => some ((a + b) / 2)
    | _, _ => none

/-- Model of the uf_df.groupby(...)["valor_numerico"].agg(...) aggregation:
    group by (indicador_tipo_nome, ano, segmento), aggregating the non-NaN
    values. -/
def groupUF (rows : List IdebRow) : List BrasilStat :=
  let keys := dedupFirst (rows.map (fun r => (r.indicador_tipo_nome, r.ano, r.segmento)))
  keys.map (fun k =>
    let vals := rows.filterMap (fun r =>
      if r.indicador_tipo_nome == k.1 && r.ano == k.2.1 && r.segmento == k.2.2
      then r.valor_numerico else none)
    { indicador_tipo_nome := k.1, ano := k.2.1, segmento := k.2.2
    , mean := listMean vals, median := listMedian vals, count := vals.length })

/-- Model of load_ideb (lines 271-334): (df_mun, df_uf, brasil_stats), where
    for a state code the state rows come back in the first component. -/
def load_ideb (csvPresent : Bool) (munTable ufTable : List IdebRow)
    (ibge : String) :
    Option (List IdebRow) × Option (List IdebRow) × Option (List BrasilStat) :=
  if !csvPresent then (none, none, none)
  else
    let mun_df := munTable.map (fun r => { r with segmento := _normalizar_segmento r.segmento })
    let uf_df := ufTable.map (fun r => { r with segmento := _normalizar_segmento r.segmento })
    let df_mun := mun_df.filter (fun r => r.codigo_ibge == ibge)
    if is_estado ibge then
      let sigla := match ufLookup ibge with
                   | some p => p.2
                   | none => ""
      let df_estado := if sigla != "" then uf_df.filter (fun r => r.indicador_uf == sigla) else []
      if df_estado.isEmpty then (none, none, none)
      else (some df_estado, none, some (groupUF uf_df))
    else
      if df_mun.isEmpty then (none, none, none)
      else
        let uf_sigla := match df_mun with
                        | r :: _ => r.indicador_uf
                        | [] => ""
        let df_uf := if uf_sigla != "" then uf_df.filter (fun r => r.indicador_uf == uf_sigla) else []
        (some df_mun, some df_uf, some (groupUF uf_df))

/-! ## Run environment.

    anoAtual and geradoEm model datetime.now(); npAvailable models the
    module-level numpy import guard; csvPresent and the two tables model the
    reference CSV files on disk. -/

structure Env where
  net : Net
  anoAtual : ℤ
  geradoEm : String
  npAvailable : Bool
  csvPresent : Bool
  munTable : List IdebRow
  ufTable : List IdebRow

/-! ## Entity resolution (gerador.py lines 340-392) -/

/-- Inner year loop of the taxa-based name discovery.  The outer option is
    none when the loop ran out of years; some r when it stopped (break or
    return), r being the discovered (name, uf) if any. -/
def descobrirTaxaAnos (net : Net) (ibge ciclo : String) :
    List ℤ → Option (Option (String × String))
  | [] => none
  | a :: rest =>
    match net.taxa ibge 0 a ciclo 0 with
    | none => descobrirTaxaAnos net ibge ciclo rest
    | some raw =>
      let ent := orT raw.entidade raw.municipio
      let par := orT raw.parent raw.estado
      match ent with
      | [] => some none
      | e :: _ =>
        let rend := e.rend
        let nome := rend.territorio.bind (fun t => t.nome)
        let uf :=
          match par with
          | [] => "??"
          | p :: _ => ((p.rend).territorio.bind (fun t => t.sigla)).getD "??"
        if (nome.getD "") != "" then some (some (nome.getD "", uf))
        else some none

/-- Model of descobrir_municipio (lines 340-392). -/
def descobrir_municipio (env : Env) (ibge0 : String) : String × String :=
  let ibge := pyStrip ibge0
  match ufLookup ibge with
  | some p => p
  | none =>
    let tryAI := descobrirTaxaAnos env.net ibge "AI" (_anos_candidatos env.anoAtual 6)
    let tryAF := descobrirTaxaAnos env.net ibge "AF" (_anos_candidatos env.anoAtual 6)
    let viaT : Option (String × String) :=
      match tryAI with
      | some (some r) => some r
      | _ =>
        match tryAF with
        | some (some r) => some r
        | _ => none
    match viaT with
    | some r => r
    | none =>
      let d := (fetch_censo env.net env.anoAtual ibge 5 none 0 0).1.1
      let viaC : Option (String × String) :=
        match d with
        | some resp =>
          match resp.censo with
          | some c =>
            match c.territorio with
            | some t =>
              if (t.nome.getD "") != "" then
                some (t.nome.getD ("IBGE_" ++ ibge),
                      match t.parent with
                      | some pr => pr.sigla.getD "??"
                      | none => "??")
              else none
            | none => none
          | none => none
        | none => none
      match viaC with
      | some r => r
      | none =>
        if env.csvPresent then
          match env.munTable.filter (fun r => r.codigo_ibge == ibge) with
          | r :: _ => (r.indicador_municipio, r.indicador_uf)
          | [] => ("IBGE_" ++ ibge, "??")
        else ("IBGE_" ++ ibge, "??")

/-! ## Small rendering helpers shared by the report renderers -/

/-- Concatenation of a list of strings (Python "".join). -/
def strJoin (l : List String) : String := l.foldl (fun a b => a ++ b) ""

/-- Python str.upper over the Latin letters appearing in the reports. -/
def pyUpperChar (c : Char) : Char :=
  if c.isLower then c.toUpper
  else if c = 'á' then 'Á' else if c = 'â' then 'Â' else if c = 'ã' then 'Ã'
  else if c = 'é' then 'É' else if c = 'ê' then 'Ê' else if c = 'í' then 'Í'
  else if c = 'ó' then 'Ó' else if c = 'ô' then 'Ô' else if c = 'õ' then 'Õ'
  else if c = 'ú' then 'Ú' else if c = 'ç' then 'Ç' else c

def pyUpper (s : String) : String := String.mk (s.data.map pyUpperChar)

/-- Python  a or d  over an optional integer (None and 0 are falsy). -/
def orZ (a : Option ℤ) (d : ℤ) : ℤ :=
  match a with
  | some n => if n != 0 then n else d
  | none => d

/-- Python  v * 100 if v and abs(v) <= 1.01 else (v or 0) . -/
def scaleTruthy (v : Option ℚ) : ℚ :=
  match v with
  | some x => if x != 0 && |x| ≤ 1.01 then x * 100 else x
  | none => 0

/-- Fixed-point display where a NaN (modelled none) renders as "nan". -/
def fmtQorNan (d : ℕ) (v : Option ℚ) : String :=
  match v with
  | some q => fmtFixed d q
  | none => "nan"

/-- Signed fixed-point display where a NaN renders as "+nan". -/
def fmtSignedOrNan (d : ℕ) (v : Option ℚ) : String :=
  match v with
  | some q => fmtSigned d q
  | none => "+nan"

/-- NaN-propagating subtraction of NaN-able rationals. -/
def subPyF (a b : Option ℚ) : Option ℚ :=
  match a, b with
  | some x, some y => some (x - y)
  | _, _ => none

/-- Python comparison x > c where a NaN x compares False. -/
def gtPyF (x : Option ℚ) (c : ℚ) : Bool :=
  match x with
  | some q => decide (c < q)
  | none => false

/-- Python comparison x < c where a NaN x compares False. -/
def ltPyF (x : Option ℚ) (c : ℚ) : Bool :=
  match x with
  | some q => decide (q < c)
  | none => false

/-- Python max(d, key=d.get) over an insertion-ordered int dict: the first
    key attaining the maximum. -/
def firstArgMax (l : List (String × ℤ)) : Option (String × ℤ) :=
  l.foldl (fun acc p =>
    match acc with
    | none => some p
    | some q => if q.2 < p.2 then some p else acc) none

/-! ## Report 2: infrastructure (gerador.py lines 752-881) -/

structure InfraItemData where
  label : String
  mun : ℚ
  est : Option ℚ
  br : Option ℚ
deriving Repr, DecidableEq

/-- Model of gerar_txt_infra. -/
def gerar_txt_infra (env : Env) (ibge mun _uf : String) : Except String String := do
  let dep_id : ℤ := 3
  let fr := fetch_infra env.net env.anoAtual ibge dep_id none
  match fr.1.1 with
  | none =>
    return _hdr "RELATÓRIO DE INFRAESTRUTURA ESCOLAR - DADOS QEDU" mun
        env.geradoEm none none (some "N/D") none
      ++ ("\n  ⚠️ Sem dados.\n" ++ _footer "QEdu (qedu.org.br)")
  | some dados =>
    let ano := fr.1.2
    let mut bloco := _hdr "RELATÓRIO DE INFRAESTRUTURA ESCOLAR - DADOS QEDU" mun
        env.geradoEm (some "Municipal") none (some (intStr ano)) none
    let mut items_data : List InfraItemData := []
    for sec in dados do
      for item in sec.items do
        let label := item.label
        let vals := item.values
        if vals.isEmpty then
          continue
        let mut vm : Option ℚ := none
        let mut ve : Option ℚ := none
        let mut vb : Option ℚ := none
        for v in vals do
          let ent := v.entidade
          if ent == "Municipio" then
            vm := v.value
          else if ent == "Estado" then
            ve := v.value
          else if ent == "Brasil" then
            vb := v.value
        match vm with
        | some m => items_data := items_data ++ [⟨label, m, ve, vb⟩]
        | none => pure ()
    if items_data.isEmpty then
      for sec in dados do
        for item in sec.items do
          let label := item.label
          let vals := item.values
          if vals.isEmpty then
            continue
          let mut ve : Option ℚ := none
          let mut vb : Option ℚ := none
          for v in vals do
            let ent := v.entidade
            if ent == "Estado" then
              ve := v.value
            else if ent == "Brasil" then
              vb := v.value
          match ve with
          | some e => items_data := items_data ++ [⟨label, e, none, vb⟩]
          | none => pure ()
    let mut items_rel := items_data.filter (fun i => ITENS_INFRA_RELEVANTES.contains i.label)
    if items_rel.isEmpty then
      items_rel := items_data.take 10
    bloco := bloco ++ ("\n\nPARTE 1: TABELA COMPARATIVA\n" ++ SUBLINE ++ "\n\n")
    bloco := bloco ++ (padLeft 20 "Indicador" ++ " " ++ padLeft 10 "Município" ++ " " ++
      padLeft 7 "Estado" ++ " " ++ padLeft 7 "Brasil" ++ " " ++ padLeft 10 "vs Brasil" ++
      " " ++ padLeft 10 "vs Estado" ++ "\n")
    for it in items_rel do
      let d_br := match it.br with
                  | some b => fmtSigned 1 ((it.mun - b) * 100) ++ "pp"
                  | none => ""
      let d_est := match it.est with
                   | some e => fmtSigned 1 ((it.mun - e) * 100) ++ "pp"
                   | none => ""
      bloco := bloco ++ (padLeft 20 it.label ++ " " ++ padLeft 10 (_pct (some it.mun)) ++ " " ++
        padLeft 7 (_pct it.est) ++ " " ++ padLeft 7 (_pct it.br) ++ " " ++
        padLeft 10 d_br ++ " " ++ padLeft 10 d_est ++ "\n")
    bloco := bloco ++ ("\n\n\n" ++ LINE ++ "\nPANORAMA COMPARATIVO - ANÁLISE QUALITATIVA\n" ++ LINE ++ "\n")
    bloco := bloco ++ ("\n📊 Análise comparativa de " ++ mun ++ " em relação ao Estado e Brasil\n")
    let abaixo_br := items_rel.filter (fun i =>
      match i.br with
      | some b => decide (i.mun < b)
      | none => false)
    let abaixo_est := items_rel.filter (fun i =>
      match i.br, i.est with
      | some b, some e => decide (b ≤ i.mun) && decide (i.mun < e)
      | _, _ => false)
    let acima := items_rel.filter (fun i => !abaixo_br.contains i && !abaixo_est.contains i)
    bloco := bloco ++ ("\n" ++ SUBLINE ++ "\n🔴 INDICADORES ABAIXO DA MÉDIA NACIONAL (BRASIL)\n" ++ SUBLINE ++ "\n\n")
    if abaixo_br.isEmpty then
      bloco := bloco ++ "   ✅ Nenhum indicador abaixo da média nacional.\n"
    for it in stableSortBy (fun x => x.mun - x.br.getD 0) abaixo_br do
      let d := (it.mun - it.br.getD 0) * 100
      bloco := bloco ++ ("\n   ❌ " ++ it.label ++ "\n")
      bloco := bloco ++ ("      Município: " ++ _pct (some it.mun) ++ " | Estado: " ++
        _pct it.est ++ " | Brasil: " ++ _pct it.br ++ "\n")
      bloco := bloco ++ ("      → " ++ fmtSigned 1 d ++ "pp vs Brasil\n")
    bloco := bloco ++ ("\n" ++ SUBLINE ++ "\n🟡 INDICADORES ABAIXO DA MÉDIA ESTADUAL (mas acima do Brasil)\n" ++ SUBLINE ++ "\n\n")
    if abaixo_est.isEmpty then
      bloco := bloco ++ "   ✅ Nenhum indicador abaixo da média estadual (que esteja acima da nacional).\n"
    for it in abaixo_est do
      bloco := bloco ++ ("\n   ⚠️ " ++ it.label ++ "\n")
      bloco := bloco ++ ("      Município: " ++ _pct (some it.mun) ++ " | Estado: " ++
        _pct it.est ++ " | Brasil: " ++ _pct it.br ++ "\n")
    bloco := bloco ++ ("\n" ++ SUBLINE ++ "\n🟢 INDICADORES ACIMA DAS MÉDIAS ESTADUAL E NACIONAL\n" ++ SUBLINE ++ "\n\n")
    for it in acima do
      let d_br := (it.mun - it.br.getD 0) * 100
      let d_est := (it.mun - it.est.getD 0) * 100
      bloco := bloco ++ ("   ✅ " ++ it.label ++ "\n")
      bloco := bloco ++ ("      Município: " ++ _pct (some it.mun) ++ " | Estado: " ++
        _pct it.est ++ " | Brasil: " ++ _pct it.br ++ "\n")
      bloco := bloco ++ ("      → " ++ fmtSigned 1 d_br ++ "pp vs Brasil | " ++
        fmtSigned 1 d_est ++ "pp vs Estado\n\n")
    let total := items_rel.length
    bloco := bloco ++ (LINE ++ "\n📋 RESUMO DO PANORAMA\n" ++ LINE ++ "\n\n")
    bloco := bloco ++ ("   Total de indicadores analisados: " ++ intStr total ++ "\n\n")
    bloco := bloco ++ ("   🔴 Abaixo do Brasil:           " ++ intStr abaixo_br.length ++ " indicador(es)\n")
    bloco := bloco ++ ("   🟡 Abaixo do Estado:           " ++ intStr abaixo_est.length ++ " indicador(es)\n")
    bloco := bloco ++ ("   🟢 Acima de ambos:             " ++ intStr acima.length ++ " indicador(es)\n")
    bloco := bloco ++ ("\n" ++ SUBLINE ++ "\n💬 CONCLUSÃO\n" ++ SUBLINE ++ "\n\n")
    let n_abr := abaixo_br.length
    if n_abr = 0 && abaixo_est.length = 0 then
      bloco := bloco ++ ("   " ++ mun ++ " apresenta EXCELENTE infraestrutura escolar nos indicadores\n")
      bloco := bloco ++ "   analisados, estando ACIMA das médias estadual e nacional em todos os itens.\n\n"
      bloco := bloco ++ "   💡 Recomendação: Focar em soluções de ATUALIZAÇÃO e MODERNIZAÇÃO,\n"
      bloco := bloco ++ "   já que a infraestrutura básica está bem estabelecida.\n"
    else if n_abr = 0 then
      bloco := bloco ++ ("   " ++ mun ++ " apresenta BOA infraestrutura, acima da média nacional,\n")
      bloco := bloco ++ "   mas com oportunidade de alcançar o patamar estadual em alguns itens.\n\n"
      bloco := bloco ++ "   💡 Recomendação: Focar em equiparar ao patamar estadual.\n"
    else if n_abr ≤ 2 then
      bloco := bloco ++ ("   " ++ mun ++ " apresenta infraestrutura PARCIALMENTE adequada,\n")
      bloco := bloco ++ ("   com " ++ intStr n_abr ++ " indicador(es) abaixo da média nacional.\n\n")
      bloco := bloco ++ "   💡 Recomendação: oportunidade de melhoria rápida.\n"
    else
      bloco := bloco ++ ("   " ++ mun ++ " apresenta DÉFICIT significativo de infraestrutura,\n")
      bloco := bloco ++ ("   com " ++ intStr n_abr ++ " indicadores abaixo da média nacional.\n\n")
      bloco := bloco ++ "   💡 Recomendação: Priorizar INFRAESTRUTURA BÁSICA — grande potencial de mercado.\n"
    bloco := bloco ++ _footer "QEdu (qedu.org.br)"
    return bloco

/-! ## Report 3: school census (gerador.py lines 890-994) -/

/-- Model of gerar_txt_censo. -/
def gerar_txt_censo (env : Env) (ibge mun _uf : String) : Except String String := do
  let dep_id : ℤ := 3
  let fr := fetch_censo env.net env.anoAtual ibge dep_id none 0 0
  match fr.1.1 with
  | none =>
    return _hdr "RELATÓRIO DO CENSO ESCOLAR - DADOS QEDU" mun env.geradoEm
        none none none none
      ++ ("\n  ⚠️ Sem dados.\n" ++ _footer "QEdu (qedu.org.br)")
  | some resp =>
    match resp.censo with
    | none =>
      return _hdr "RELATÓRIO DO CENSO ESCOLAR - DADOS QEDU" mun env.geradoEm
          none none none none
        ++ ("\n  ⚠️ Sem dados.\n" ++ _footer "QEdu (qedu.org.br)")
    | some c =>
      let ano := fr.1.2
      let qtd_escolas := c.qtd_escolas.getD 0
      let mut mat_etapas : List (String × ℤ) := []
      let mut total_mat : ℤ := 0
      for ce in CAMPOS_MATRICULA do
        match c.get ce.1 with
        | some v =>
          mat_etapas := mat_etapas ++ [(ce.2, v)]
          total_mat := total_mat + v
        | none => pure ()
      let media_alunos : ℚ :=
        if qtd_escolas != 0 then (total_mat : ℚ) / (qtd_escolas : ℚ) else 0
      let mut bloco := _hdr "RELATÓRIO DO CENSO ESCOLAR - DADOS QEDU" mun
        env.geradoEm none none none none
      bloco := bloco ++ "\n"
      bloco := bloco ++ ("\n" ++ STARS ++ "\nPARTE 1: RESUMO GERAL\n" ++ STARS ++ "\n\n")
      bloco := bloco ++ (padLeft 25 "Indicador" ++ " " ++ padLeft 22 "Valor" ++ "\n")
      bloco := bloco ++ (padLeft 25 "Número de Escolas" ++ " " ++ padLeft 22 (fmtComma qtd_escolas) ++ "\n")
      bloco := bloco ++ (padLeft 25 "Total de Matrículas" ++ " " ++ padLeft 22 (fmtComma total_mat) ++ "\n")
      bloco := bloco ++ (padLeft 25 "Média de Alunos por Escola" ++ " " ++ padLeft 22 (fmtFixed 1 media_alunos) ++ "\n")
      bloco := bloco ++ (padLeft 25 "Rede" ++ " " ++ padLeft 22 "Municipal" ++ "\n")
      bloco := bloco ++ (padLeft 25 "Localização" ++ " " ++ padLeft 22 "Urbana e Rural (todas)" ++ "\n")
      bloco := bloco ++ (padLeft 25 "Ano de Referência" ++ " " ++ padLeft 22 (intStr ano) ++ "\n")
      bloco := bloco ++ ("\n\n" ++ STARS ++ "\nPARTE 2: MATRÍCULAS POR ETAPA DE ENSINO\n" ++ STARS ++ "\n\n")
      bloco := bloco ++ (padLeft 25 "Etapa de Ensino" ++ " " ++ padLeft 11 "Matrículas" ++ " " ++
        padLeft 11 "% do Total" ++ " " ++ padLeft 17 "Média por Escola" ++ "\n")
      for le in mat_etapas do
        let p : ℚ := if total_mat != 0 then (le.2 : ℚ) / (total_mat : ℚ) * 100 else 0
        let m : ℚ := if qtd_escolas != 0 then (le.2 : ℚ) / (qtd_escolas : ℚ) else 0
        bloco := bloco ++ (padLeft 25 le.1 ++ " " ++ padLeft 11 (fmtComma le.2) ++ " " ++
          padLeft 10 (fmtFixed 1 p) ++ "% " ++ padLeft 17 (fmtFixed 1 m) ++ "\n")
      bloco := bloco ++ (padLeft 25 "TOTAL" ++ " " ++ padLeft 11 (fmtComma total_mat) ++ " " ++
        padLeft 11 "100%" ++ " " ++ padLeft 17 (fmtFixed 1 media_alunos) ++ "\n")
      bloco := bloco ++ ("\n\n" ++ STARS ++ "\nPARTE 3: MATRÍCULAS POR SÉRIE/ANO\n" ++ STARS ++ "\n\n")
      bloco := bloco ++ (padLeft 15 "Ciclo" ++ " " ++ padLeft 10 "Série/Ano" ++ " " ++ padLeft 11 "Matrículas" ++ "\n")
      let mut subtotais : List (String × ℤ) := []
      for cs in CAMPOS_SERIES do
        match c.get cs.1 with
        | some v =>
          bloco := bloco ++ (padLeft 15 cs.2.2 ++ " " ++ padLeft 10 cs.2.1 ++ " " ++ padLeft 11 (fmtComma v) ++ "\n")
          subtotais := assocSet subtotais cs.2.2 ((assocGet subtotais cs.2.2).getD 0 + v)
        | none => pure ()
      for st in subtotais do
        bloco := bloco ++ (padLeft 15 st.1 ++ " " ++ padLeft 10 "Subtotal" ++ " " ++ padLeft 11 (fmtComma st.2) ++ "\n")
      bloco := bloco ++ ("\n\n" ++ LINE ++ "\nANÁLISE QUALITATIVA - CENSO ESCOLAR\n" ++ LINE ++ "\n")
      bloco := bloco ++ ("\n📍 Território: " ++ mun ++ "\n🏫 Rede: Municipal\n")
      bloco := bloco ++ "📍 Localização: Urbana e Rural (todas)\n"
      bloco := bloco ++ ("📅 Ano de referência: " ++ intStr ano ++ "\n")
      bloco := bloco ++ ("\n" ++ SUBLINE ++ "\n📊 VISÃO GERAL\n" ++ SUBLINE ++ "\n\n")
      bloco := bloco ++ ("   • Total de Escolas: " ++ fmtComma qtd_escolas ++ "\n")
      bloco := bloco ++ ("   • Total de Matrículas: " ++ fmtComma total_mat ++ "\n")
      bloco := bloco ++ ("   • Média de alunos por escola: " ++ fmtFixed 1 media_alunos ++ "\n")
      bloco := bloco ++ ("\n" ++ SUBLINE ++ "\n📚 DISTRIBUIÇÃO POR ETAPA DE ENSINO\n" ++ SUBLINE ++ "\n\n")
      for le in stableSortBy (fun x => (-(x.2) : ℚ)) mat_etapas do
        let p : ℚ := if total_mat != 0 then (le.2 : ℚ) / (total_mat : ℚ) * 100 else 0
        bloco := bloco ++ ("   • " ++ le.1 ++ ": " ++ fmtComma le.2 ++ " matrículas (" ++
          fmtFixed 1 p ++ "%)\n")
      match firstArgMax mat_etapas with
      | some me =>
        bloco := bloco ++ ("\n   📌 Maior concentração: " ++ me.1 ++ "\n")
        bloco := bloco ++ ("      com " ++ fmtComma me.2 ++ " matrículas\n")
      | none => pure ()
      bloco := bloco ++ ("\n" ++ SUBLINE ++ "\n💡 INSIGHTS PARA ABORDAGEM COMERCIAL\n" ++ SUBLINE ++ "\n\n")
      let mat_infantil := orZ c.matriculas_creche 0 +
        orZ c.matriculas_pre_escolar (orZ c.matriculas_pre_escola 0)
      let mat_fund := orZ c.matriculas_anos_iniciais 0 + orZ c.matriculas_anos_finais 0
      let mat_em := orZ c.matriculas_ensino_medio 0
      let mat_eja := orZ c.matriculas_eja 0
      let mat_especial := orZ c.matriculas_educacao_especial 0
      if mat_infantil != 0 then
        bloco := bloco ++ ("   👶 EDUCAÇÃO INFANTIL: " ++ fmtComma mat_infantil ++ " matrículas\n")
        bloco := bloco ++ "      → Potencial para: materiais lúdicos, livros infantis, brinquedos educativos\n\n"
      if mat_fund != 0 then
        bloco := bloco ++ ("   📖 ENSINO FUNDAMENTAL: " ++ fmtComma mat_fund ++ " matrículas\n")
        bloco := bloco ++ ("      • Anos Iniciais: " ++ fmtComma (c.matriculas_anos_iniciais.getD 0) ++ "\n")
        bloco := bloco ++ ("      • Anos Finais: " ++ fmtComma (c.matriculas_anos_finais.getD 0) ++ "\n")
        bloco := bloco ++ "      → Potencial para: livros didáticos, paradidáticos, materiais de alfabetização\n\n"
      if mat_em != 0 then
        bloco := bloco ++ ("   🎓 ENSINO MÉDIO: " ++ fmtComma mat_em ++ " matrículas\n")
        bloco := bloco ++ "      → Potencial para: materiais preparatórios ENEM/vestibular, livros técnicos\n\n"
      if mat_eja != 0 then
        bloco := bloco ++ ("   📚 EJA: " ++ fmtComma mat_eja ++ " matrículas\n")
        bloco := bloco ++ "      → Potencial para: materiais específicos para jovens e adultos\n\n"
      if mat_especial != 0 then
        bloco := bloco ++ ("   ♿ EDUCAÇÃO ESPECIAL: " ++ fmtComma mat_especial ++ " matrículas\n")
        bloco := bloco ++ "      → Potencial para: materiais adaptados, recursos de acessibilidade\n\n"
      bloco := bloco ++ _footer "QEdu - Censo Escolar (qedu.org.br)"
      return bloco

/-! ## Report 5: taxa de rendimento (gerador.py lines 1307-1587) -/

/-- Dynamic field access  r.get(campo)  over the rendimento keys. -/
def Rendimento.get (r : Rendimento) (campo : String) : Option ℚ :=
  if campo == "aprovados" then r.aprovados
  else if campo == "reprovados" then r.reprovados
  else if campo == "abandonos" then r.abandonos
  else none

/-- Per-ciclo collected data of gerar_txt_taxa. -/
structure EtapaDados where
  aprovados : Option ℚ
  reprovados : Option ℚ
  abandonos : Option ℚ
  nome : String
  dados_full : TaxaNorm
  ano : ℤ
deriving Repr, DecidableEq

/-- Model of gerar_txt_taxa. -/
def gerar_txt_taxa (env : Env) (ibge mun _uf : String) : Except String String := do
  let mut etapas_dados : List (String × Option EtapaDados) := []
  let mut ano_ref : ℤ := 0
  for ci in CICLOS do
    let cid := ci.1
    let cnome := ci.2
    let ft := fetch_taxa env.net env.anoAtual ibge cid 0 none 0
    match ft.1.1 with
    | none =>
      etapas_dados := assocSet etapas_dados cid none
      continue
    | some dados =>
      let a := ft.1.2
      if ano_ref < a then
        ano_ref := a
      let reg_mun := _get_ultimo_reg dados.municipio
      let rend := match reg_mun with
                  | some r => _get_rendimento r
                  | none => (none, none, none)
      etapas_dados := assocSet etapas_dados cid (some
        { aprovados := rend.1, reprovados := rend.2.1, abandonos := rend.2.2
        , nome := cnome, dados_full := dados, ano := a })
  if ano_ref = 0 then
    return _hdr "RELATÓRIO DE TAXAS DE RENDIMENTO - DADOS QEDU" mun env.geradoEm
        none none none none
      ++ ("\n  ⚠️ Sem dados.\n" ++ _footer "QEdu (qedu.org.br)")
  let mut anos_hist : List ℤ := []
  for ep in etapas_dados do
    match ep.2 with
    | some ed =>
      for r in ed.dados_full.municipio do
        match r.ano with
        | some ra =>
          if ra != 0 && !anos_hist.contains ra then
            anos_hist := anos_hist ++ [ra]
        | none => pure ()
    | none => pure ()
  let anos_hist_s := stableSortBy (fun (a : ℤ) => (a : ℚ)) anos_hist
  let periodo :=
    match anos_hist_s with
    | a :: _ :: _ => intStr a ++ " a " ++ intStr (anos_hist_s.getLastD a)
    | _ => intStr ano_ref
  let mut bloco := _hdr "RELATÓRIO DE TAXAS DE RENDIMENTO - DADOS QEDU" mun
    env.geradoEm none none (some (intStr ano_ref)) (some periodo)
  bloco := bloco ++ "\n"
  bloco := bloco ++ ("\n" ++ STARS ++ "\nPARTE 1: TAXAS DE RENDIMENTO POR ETAPA\n" ++ STARS ++ "\n\n")
  bloco := bloco ++ (padLeft 28 "Etapa" ++ " " ++ padLeft 10 "Aprovação" ++ " " ++
    padLeft 11 "Reprovação" ++ " " ++ padLeft 9 "Abandono" ++ "\n")
  for ci in CICLOS do
    let cnome := ci.2
    match (assocGet etapas_dados ci.1).getD none with
    | some ed =>
      if ed.aprovados.isSome then
        bloco := bloco ++ (padLeft 28 cnome ++ " " ++ padLeft 10 (_safe_taxa ed.aprovados) ++ " " ++
          padLeft 11 (_safe_taxa ed.reprovados) ++ " " ++ padLeft 9 (_safe_taxa ed.abandonos) ++ "\n")
      else
        bloco := bloco ++ (padLeft 28 cnome ++ " " ++ padLeft 10 "sem dados" ++ " " ++
          padLeft 11 "sem dados" ++ " " ++ padLeft 9 "sem dados" ++ "\n")
    | none =>
      bloco := bloco ++ (padLeft 28 cnome ++ " " ++ padLeft 10 "sem dados" ++ " " ++
        padLeft 11 "sem dados" ++ " " ++ padLeft 9 "sem dados" ++ "\n")
  bloco := bloco ++ ("\n\n" ++ STARS ++ "\nPARTE 2: COMPARATIVO " ++ intStr ano_ref ++
    " - MUNICÍPIO vs ESTADO vs BRASIL\n" ++ STARS ++ "\n\n")
  let mut nome_estado := "Estado"
  for ci in CICLOS do
    match (assocGet etapas_dados ci.1).getD none with
    | some ed =>
      let dados_comp := ed.dados_full
      nome_estado := _get_nome_estado dados_comp
      let rm := _get_ultimo_reg dados_comp.municipio
      let re_ := _get_ultimo_reg dados_comp.estado
      let rb := _get_ultimo_reg dados_comp.brasil
      match rm with
      | some rmr =>
        bloco := bloco ++ (padLeft 10 "Indicador" ++ " " ++ padLeft 10 "Município" ++ " " ++
          padLeft 7 "Estado" ++ " " ++ padLeft 7 "Brasil" ++ " " ++ padLeft 10 "vs Estado" ++
          " " ++ padLeft 10 "vs Brasil" ++ "\n")
        let am := (_get_rendimento rmr).1
        let rpm := (_get_rendimento rmr).2.1
        let abm := (_get_rendimento rmr).2.2
        let re2 := match re_ with
                   | some r => _get_rendimento r
                   | none => (none, none, none)
        let rb2 := match rb with
                   | some r => _get_rendimento r
                   | none => (none, none, none)
        for row in [("Aprovação", am, re2.1, rb2.1),
                    ("Reprovação", rpm, re2.2.1, rb2.2.1),
                    ("Abandono", abm, re2.2.2, rb2.2.2)] do
          let ind := row.1
          let vm := row.2.1
          let ve := row.2.2.1
          let vb := row.2.2.2
          let d_est := _pp (match vm, ve with
                            | some x, some y => some (x - y)
                            | _, _ => none) 2
          let d_br := _pp (match vm, vb with
                           | some x, some y => some (x - y)
                           | _, _ => none) 2
          bloco := bloco ++ (padLeft 10 ind ++ " " ++ padLeft 10 (_safe_taxa vm) ++ " " ++
            padLeft 7 (_safe_taxa ve) ++ " " ++ padLeft 7 (_safe_taxa vb) ++ " " ++
            padLeft 10 d_est ++ " " ++ padLeft 10 d_br ++ "\n")
      | none => pure ()
      break
    | none => pure ()
  bloco := bloco ++ ("\n\n" ++ STARS ++ "\nPARTE 3: EVOLUÇÃO HISTÓRICA (" ++ periodo ++ ")\n" ++
    STARS ++ "\n\n")
  for ci in CICLOS do
    match (assocGet etapas_dados ci.1).getD none with
    | none => continue
    | some ed =>
      let dados_hist := ed.dados_full
      let mut anosU : List ℤ := []
      for r in dados_hist.municipio do
        match r.ano with
        | some ra =>
          if ra != 0 && !anosU.contains ra then
            anosU := anosU ++ [ra]
        | none => pure ()
      let mut all_anos := stableSortBy (fun (a : ℤ) => (a : ℚ)) anosU
      if 5 < all_anos.length then
        all_anos := all_anos.drop (all_anos.length - 3)
      if all_anos.length < 2 then
        continue
      let col_anos := strJoin (all_anos.map (fun a => padLeft 6 (intStr a)))
      bloco := bloco ++ (padLeft 10 "Indicador" ++ " " ++ padLeft 10 "Entidade" ++ " " ++
        col_anos ++ " " ++ padLeft 10 "Variação" ++ "\n")
      for indc in [("Aprovação", "aprovados"), ("Reprovação", "reprovados"),
                   ("Abandono", "abandonos")] do
        for esc in [("municipio", "Município"), ("estado", nome_estado),
                    ("brasil", "Brasil")] do
          let regs := if esc.1 == "municipio" then dados_hist.municipio
                      else if esc.1 == "estado" then dados_hist.estado
                      else dados_hist.brasil
          let mut regs_dict : List (Option ℤ × Option ℚ) := []
          for reg in regs do
            regs_dict := assocSet regs_dict reg.ano (reg.rend.get indc.2)
          let mut vals_str := ""
          let mut first_v : Option ℚ := none
          let mut last_v : Option ℚ := none
          for a in all_anos do
            let v := (assocGet regs_dict (some a)).getD none
            vals_str := vals_str ++ padLeft 6 (_safe_taxa v)
            match v with
            | some vq =>
              if first_v.isNone then
                first_v := some vq
              last_v := some vq
            | none => pure ()
          let var_str := match first_v, last_v with
                         | some f, some l => _pp (some (l - f)) 2
                         | _, _ => ""
          bloco := bloco ++ (padLeft 10 indc.1 ++ " " ++ padLeft 10 esc.2 ++ " " ++
            vals_str ++ " " ++ padLeft 10 var_str ++ "\n")
      break
  bloco := bloco ++ ("\n\n" ++ LINE ++ "\nANÁLISE QUALITATIVA - TAXAS DE RENDIMENTO\n" ++ LINE ++ "\n")
  let mut alertas : List String := []
  let mut destaques : List String := []
  bloco := bloco ++ ("\n" ++ SUBLINE ++ "\n📊 DIAGNÓSTICO POR ETAPA DE ENSINO\n" ++ SUBLINE ++ "\n")
  for ci in CICLOS do
    let cnome := ci.2
    match (assocGet etapas_dados ci.1).getD none with
    | none =>
      bloco := bloco ++ ("\n   📌 " ++ pyUpper cnome ++ ": sem dados disponíveis\n")
    | some ed =>
      if ed.aprovados.isNone then
        bloco := bloco ++ ("\n   📌 " ++ pyUpper cnome ++ ": sem dados disponíveis\n")
        continue
      let aprov := ed.aprovados
      let reprov := ed.reprovados
      let aband := ed.abandonos
      bloco := bloco ++ ("\n   📌 " ++ pyUpper cnome ++ "\n\n")
      let ac := _classificar_taxa aprov "aprovacao"
      let rc := _classificar_taxa reprov "reprovacao"
      let bc := _classificar_taxa aband "abandono"
      bloco := bloco ++ ("      " ++ ac.2 ++ " Aprovação: " ++ _safe_taxa aprov ++ " - " ++ ac.1 ++ "\n")
      bloco := bloco ++ ("      " ++ rc.2 ++ " Reprovação: " ++ _safe_taxa reprov ++ " - " ++ rc.1 ++ "\n")
      bloco := bloco ++ ("      " ++ bc.2 ++ " Abandono: " ++ _safe_taxa aband ++ " - " ++ bc.1 ++ "\n")
      let rv := scaleTruthy reprov
      let av := scaleTruthy aband
      let apv := scaleTruthy aprov
      if 5 < rv then
        alertas := alertas ++ [cnome ++ ": Alta reprovação (" ++ fmtFixed 1 rv ++ "%)"]
      if 3 < av then
        alertas := alertas ++ [cnome ++ ": Alto abandono (" ++ fmtFixed 1 av ++ "%)"]
      if 98 ≤ apv then
        destaques := destaques ++ [cnome ++ ": Excelente aprovação (" ++ fmtFixed 1 apv ++ "%)"]
  bloco := bloco ++ ("\n" ++ SUBLINE ++ "\n📈 COMPARATIVO " ++ intStr ano_ref ++ ": " ++
    pyUpper mun ++ " vs " ++ pyUpper nome_estado ++ " vs BRASIL\n" ++ SUBLINE ++ "\n")
  for ci in CICLOS do
    match (assocGet etapas_dados ci.1).getD none with
    | none => continue
    | some ed =>
      let dados_comp := ed.dados_full
      let rm := _get_ultimo_reg dados_comp.municipio
      let re_ := _get_ultimo_reg dados_comp.estado
      let rb := _get_ultimo_reg dados_comp.brasil
      match rm with
      | none => continue
      | some rmr =>
        let rmd := _get_rendimento rmr
        let red := match re_ with
                   | some r => _get_rendimento r
                   | none => (none, none, none)
        let rbd := match rb with
                   | some r => _get_rendimento r
                   | none => (none, none, none)
        for row in [("Aprovação", rmd.1, red.1, rbd.1, "aprovados"),
                    ("Reprovação", rmd.2.1, red.2.1, rbd.2.1, "reprovados"),
                    ("Abandono", rmd.2.2, red.2.2, rbd.2.2, "abandonos")] do
          let ind := row.1
          let vm := row.2.1
          let ve := row.2.2.1
          let vb := row.2.2.2.1
          let campo := row.2.2.2.2
          bloco := bloco ++ ("\n   " ++ ind ++ ":\n")
          bloco := bloco ++ ("      • " ++ mun ++ ": " ++ _safe_taxa vm ++ "\n")
          if ve.isSome then
            bloco := bloco ++ ("      • " ++ nome_estado ++ ": " ++ _safe_taxa ve ++ "\n")
          if vb.isSome then
            bloco := bloco ++ ("      • Brasil: " ++ _safe_taxa vb ++ "\n")
          match vm, ve with
          | some x, some y =>
            let d := x - y
            let dpp := if |d| ≤ 1.01 then d * 100 else d
            let e := if campo == "aprovados" then
                       if 0.005 < dpp then "✅ acima" else if dpp < -0.005 then "🔴 abaixo" else "➡️ igual"
                     else
                       if dpp < -0.005 then "✅ melhor" else if 0.005 < dpp then "🔴 pior" else "➡️ igual"
            bloco := bloco ++ ("      → " ++ e ++ " do estado (" ++ fmtSigned 2 dpp ++ "pp)\n")
          | _, _ => pure ()
          match vm, vb with
          | some x, some y =>
            let d := x - y
            let dpp := if |d| ≤ 1.01 then d * 100 else d
            let e := if campo == "aprovados" then
                       if 0.005 < dpp then "✅ acima" else if dpp < -0.005 then "🔴 abaixo" else "➡️ igual"
                     else
                       if dpp < -0.005 then "✅ melhor" else if 0.005 < dpp then "🔴 pior" else "➡️ igual"
            bloco := bloco ++ ("      → " ++ e ++ " do Brasil (" ++ fmtSigned 2 dpp ++ "pp)\n")
          | _, _ => pure ()
        break
  for ci in CICLOS do
    match (assocGet etapas_dados ci.1).getD none with
    | none => continue
    | some ed =>
      let regs := stableSortBy (fun x => ((x.ano.getD 0 : ℤ) : ℚ)) ed.dados_full.municipio
      match regs with
      | r1 :: _ :: _ =>
        let rfirst := _get_rendimento r1
        let rlast := _get_rendimento (regs.getLastD r1)
        bloco := bloco ++ ("\n" ++ SUBLINE ++ "\n📅 EVOLUÇÃO TEMPORAL (" ++ periodo ++ ")\n" ++ SUBLINE ++ "\n")
        match rfirst.1, rlast.1 with
        | some f, some l =>
          let d := l - f
          let dpp := if |d| ≤ 1.01 then d * 100 else d
          let e := if 0.005 < dpp then "📈 Melhora" else if dpp < -0.005 then "📉 Piora" else "➡️ Estável"
          bloco := bloco ++ ("\n   Aprovação: " ++ _safe_taxa (some f) ++ " → " ++
            _safe_taxa (some l) ++ " (" ++ fmtSigned 2 dpp ++ "pp) " ++ e ++ "\n")
        | _, _ => pure ()
        match rfirst.2.1, rlast.2.1 with
        | some f, some l =>
          let d := l - f
          let dpp := if |d| ≤ 1.01 then d * 100 else d
          let e := if dpp < -0.005 then "📈 Melhora" else if 0.005 < dpp then "📉 Piora" else "➡️ Estável"
          bloco := bloco ++ ("   Reprovação: " ++ _safe_taxa (some f) ++ " → " ++
            _safe_taxa (some l) ++ " (" ++ fmtSigned 2 dpp ++ "pp) " ++ e ++ "\n")
        | _, _ => pure ()
        match rfirst.2.2, rlast.2.2 with
        | some f, some l =>
          let d := l - f
          let dpp := if |d| ≤ 1.01 then d * 100 else d
          let e := if dpp < -0.005 then "📈 Melhora" else if 0.005 < dpp then "📉 Piora" else "➡️ Estável"
          bloco := bloco ++ ("   Abandono: " ++ _safe_taxa (some f) ++ " → " ++
            _safe_taxa (some l) ++ " (" ++ fmtSigned 2 dpp ++ "pp) " ++ e ++ "\n")
        | _, _ => pure ()
      | _ => pure ()
      break
  if !alertas.isEmpty then
    bloco := bloco ++ ("\n" ++ SUBLINE ++ "\n🚨 ALERTAS\n" ++ SUBLINE ++ "\n\n")
    for al in alertas do
      bloco := bloco ++ ("   ⚠️ " ++ al ++ "\n")
  if !destaques.isEmpty then
    bloco := bloco ++ ("\n" ++ SUBLINE ++ "\n🌟 DESTAQUES POSITIVOS\n" ++ SUBLINE ++ "\n\n")
    for de in destaques do
      bloco := bloco ++ ("   ✅ " ++ de ++ "\n")
  bloco := bloco ++ ("\n" ++ SUBLINE ++ "\n💡 CONCLUSÃO E RECOMENDAÇÕES\n" ++ SUBLINE ++ "\n\n")
  if alertas.length = 0 then
    bloco := bloco ++ ("   ✅ " ++ mun ++ " apresenta EXCELENTES taxas de rendimento escolar.\n")
    bloco := bloco ++ "   O fluxo escolar está saudável, com baixa reprovação e abandono.\n\n"
    bloco := bloco ++ "   💼 Abordagem comercial: Focar em soluções de EXCELÊNCIA\n"
    bloco := bloco ++ "   e enriquecimento curricular para manter os bons indicadores.\n"
  else if alertas.length ≤ 2 then
    bloco := bloco ++ ("   ⚠️ " ++ mun ++ " apresenta BOAS taxas, com pontos de atenção.\n\n")
    bloco := bloco ++ "   💼 Abordagem: soluções direcionadas para etapas problemáticas.\n"
  else
    bloco := bloco ++ ("   🔴 " ++ mun ++ " apresenta DESAFIOS no fluxo escolar.\n\n")
    bloco := bloco ++ "   💼 Abordagem: RECUPERAÇÃO e reforço escolar. Grande potencial de mercado.\n"
  bloco := bloco ++ _footer "QEdu - Taxas de Rendimento / INEP (qedu.org.br)"
  return bloco

/-! ## Report 1: aprendizado / SAEB (gerador.py lines 496-743) -/

/-- Cycle label rewriting for AI/AF (line 510). -/
def cicloLabel (cid cnome : String) : String :=
  if cid == "AI" || cid == "AF" then
    if strHasSub cnome "(" then
      let parts := pySplitOn cnome "("
      pyStrip (parts.headD "") ++ " do Ensino Fundamental (" ++ parts.getD 1 ""
    else cnome
  else cnome

/-- One cell of the PARTE 1 evolution table: Python
     f-string of (v * 100 if v else 0) under format spec >6.1f plus a percent
    sign (line 537).  A missing or zero value renders as 0.0 percent. -/
def parte1Cell (v : Option ℚ) : String :=
  padLeft 6 (fmtFixed 1 (match v with
    | some x => if x != 0 then x * 100 else 0
    | none => 0)) ++ "%"

/-- Item of the comparative categorisation (lines 674-687). -/
structure CatItem where
  disc : String
  mun : ℚ
  br : Option ℚ
  sem : Option ℚ
deriving Repr, DecidableEq

/-- Python truthiness of an optional rational (None and 0.0 falsy). -/
def truthyQ (v : Option ℚ) : Bool :=
  match v with
  | some x => x != 0
  | none => false

/-- Model of gerar_txt_aprendizado.  The one Python raise point reached with
    shape-correct payloads is formatting a record without "ano" in the year
    header (f-string with format spec on None), modelled by throw. -/
def gerar_txt_aprendizado (env : Env) (ibge mun _uf : String) : Except String String := do
  let dep_id : ℤ := 5
  let mut txt_final := ""
  for ci in CICLOS do
    let cid := ci.1
    let cnome := ci.2
    let dados := (fetch_aprendizado env.net ibge dep_id cid).1
    let ext := _extrair_territorios dados ibge
    let recs_mun0 := ext.1
    let recs_est := ext.2.1
    let recs_br := ext.2.2
    match recs_mun0 with
    | [] => continue
    | _ :: _ =>
      let ciclo_label := cicloLabel cid cnome
      let mut bloco := _hdr "RELATÓRIO COMPLETO DE APRENDIZADO - DADOS QEDU" mun
        env.geradoEm (some "Pública (todas as redes)") (some ciclo_label) none none
      bloco := bloco ++ "\n"
      let recs_mun := stableSortBy (fun x => ((x.ano.getD 0 : ℤ) : ℚ)) recs_mun0
      let anos_disp := recs_mun.map (fun r => r.ano)
      bloco := bloco ++ ("\n" ++ STARS ++ "\nPARTE 1: EVOLUÇÃO TEMPORAL DOS INDICADORES\n" ++ STARS ++ "\n\n")
      let mut col_anos := ""
      for a in anos_disp do
        match a with
        | some n => col_anos := col_anos ++ padLeft 7 (intStr n)
        | none => throw "unsupported format string passed to NoneType.__format__"
      bloco := bloco ++ (padLeft 18 "Disciplina" ++ " " ++ padLeft 40 "Nível" ++ " " ++
        col_anos ++ " " ++ padLeft 10 "Variação" ++ "\n")
      for di in DISCIPLINAS do
        let disc := di.1
        let disc_nome := di.2
        for ni in NIVEIS do
          let niv_key := ni.1
          let niv_label := ni.2
          let vals := recs_mun.map (fun r =>
            if niv_key == "adequado" then _adeq r disc else r.getNivel disc niv_key)
          let vals_str := strJoin (vals.map parte1Cell)
          let var_str :=
            match vals with
            | v0 :: _ :: _ =>
              match v0, vals.getLastD none with
              | some f, some l => fmtSigned 2 ((l - f) * 100) ++ "pp"
              | _, _ => ""
            | _ => ""
          bloco := bloco ++ (padLeft 18 disc_nome ++ " " ++ padLeft 40 niv_label ++ " " ++
            vals_str ++ " " ++ padLeft 10 var_str ++ "\n")
      bloco := bloco ++ ("\n\n" ++ STARS ++ "\nPARTE 2: COMPARATIVO COM MUNICÍPIOS SEMELHANTES E BRASIL\n" ++ STARS ++ "\n")
      let ultimo_mun := recs_mun.getLastD {}
      let ultimo_br := match recs_br with
                       | [] => none
                       | _ => (stableSortBy (fun x => ((x.ano.getD 0 : ℤ) : ℚ)) recs_br).getLast?
      let ultimo_sem := match recs_est with
                        | [] => none
                        | _ => (stableSortBy (fun x => ((x.ano.getD 0 : ℤ) : ℚ)) recs_est).getLast?
      bloco := bloco ++ "\nRESUMO - % de Alunos com Aprendizado Adequado:\n\n"
      let h_sem := if ultimo_sem.isSome then "Municípios semelhantes" else "Estado"
      bloco := bloco ++ (padLeft 18 "Disciplina" ++ " " ++ padLeft 10 "Município" ++ " " ++
        padLeft 23 h_sem ++ " " ++ padLeft 7 "Brasil" ++ " " ++ padLeft 15 "vs Semelhantes" ++
        " " ++ padLeft 10 "vs Brasil" ++ "\n")
      for di in DISCIPLINAS do
        let disc := di.1
        let disc_nome := di.2
        let vm := _adeq ultimo_mun disc
        let vb := match ultimo_br with
                  | some b => _adeq b disc
                  | none => none
        let vs := match ultimo_sem with
                  | some s => _adeq s disc
                  | none => none
        let d_sem := match vm, vs with
                     | some x, some y => fmtSigned 1 ((x - y) * 100) ++ "pp"
                     | _, _ => ""
        let d_br := match vm, vb with
                    | some x, some y => fmtSigned 1 ((x - y) * 100) ++ "pp"
                    | _, _ => ""
        bloco := bloco ++ (padLeft 18 disc_nome ++ " " ++ padLeft 10 (_pct vm) ++ " " ++
          padLeft 23 (_pct vs) ++ " " ++ padLeft 7 (_pct vb) ++ " " ++ padLeft 15 d_sem ++
          " " ++ padLeft 10 d_br ++ "\n")
      bloco := bloco ++ "\n\nDETALHAMENTO POR NÍVEL:\n\n"
      bloco := bloco ++ (padLeft 18 "Disciplina" ++ " " ++ padLeft 40 "Nível" ++ " " ++
        padLeft 10 "Município" ++ " " ++ padLeft 23 h_sem ++ " " ++ padLeft 7 "Brasil" ++
        " " ++ padLeft 15 "vs Semelhantes" ++ " " ++ padLeft 10 "vs Brasil" ++ "\n")
      for di in DISCIPLINAS do
        let disc := di.1
        let disc_nome := di.2
        for ni in NIVEIS do
          let niv_key := ni.1
          let niv_label := ni.2
          let vm := if niv_key == "adequado" then _adeq ultimo_mun disc
                    else ultimo_mun.getNivel disc niv_key
          let vb := match ultimo_br with
                    | some b => if niv_key == "adequado" then _adeq b disc
                                else b.getNivel disc niv_key
                    | none => none
          let vs := match ultimo_sem with
                    | some s => if niv_key == "adequado" then _adeq s disc
                                else s.getNivel disc niv_key
                    | none => none
          let d_sem := match vm, vs with
                       | some x, some y => fmtSigned 1 ((x - y) * 100) ++ "pp"
                       | _, _ => ""
          let d_br := match vm, vb with
                      | some x, some y => fmtSigned 1 ((x - y) * 100) ++ "pp"
                      | _, _ => ""
          bloco := bloco ++ (padLeft 18 disc_nome ++ " " ++ padLeft 40 niv_label ++ " " ++
            padLeft 10 (_pct vm) ++ " " ++ padLeft 23 (_pct vs) ++ " " ++
            padLeft 7 (_pct vb) ++ " " ++ padLeft 15 d_sem ++ " " ++ padLeft 10 d_br ++ "\n")
      bloco := bloco ++ ("\n\n" ++ STARS ++ "\nPARTE 3: ANÁLISE QUALITATIVA\n" ++ STARS ++ "\n")
      bloco := bloco ++ ("\n" ++ LINE ++ "\nANÁLISE QUALITATIVA - EVOLUÇÃO DO APRENDIZADO\n" ++ LINE ++ "\n")
      bloco := bloco ++ ("\n📍 Território: " ++ mun ++ "\n🏫 Rede: Pública (todas as redes)\n")
      bloco := bloco ++ ("📚 Ciclo: " ++ ciclo_label ++ "\n")
      bloco := bloco ++ ("📅 Período analisado: " ++ pyStrOptInt (anos_disp.headD none) ++
        " a " ++ pyStrOptInt (anos_disp.getLastD none) ++ "\n")
      bloco := bloco ++ ("\n" ++ SUBLINE ++ "\nDIAGNÓSTICO ATUAL POR DISCIPLINA\n" ++ SUBLINE ++ "\n")
      let mut alertas_criticos : ℕ := 0
      let mut abaixo_brasil : ℕ := 0
      let mut oportunidades : List (String × ℚ × Option ℚ) := []
      for di in DISCIPLINAS do
        let disc := di.1
        let disc_nome := di.2
        let adeq := _adeq ultimo_mun disc
        let ce := _classificar_desempenho adeq
        let prof := ultimo_mun.getNivel disc "proficiente"
        let avanc := ultimo_mun.getNivel disc "avancado"
        let basico := ultimo_mun.getNivel disc "basico"
        let insuf := ultimo_mun.getNivel disc "insuficiente"
        let inad : ℚ := basico.getD 0 + insuf.getD 0
        bloco := bloco ++ ("\n📘 " ++ pyUpper disc_nome ++ "\n\n")
        bloco := bloco ++ ("   " ++ ce.2 ++ " Situação atual: " ++ ce.1 ++ "\n")
        bloco := bloco ++ ("   • Alunos com aprendizado adequado: " ++ _pct adeq ++ "\n")
        bloco := bloco ++ ("      - Avançado: " ++ _pct avanc ++ "\n")
        bloco := bloco ++ ("      - Proficiente: " ++ _pct prof ++ "\n")
        bloco := bloco ++ ("   • Alunos com aprendizado inadequado: " ++ _pct (some inad) ++ "\n")
        bloco := bloco ++ ("      - Básico: " ++ _pct basico ++ "\n")
        bloco := bloco ++ ("      - Insuficiente: " ++ _pct insuf ++ "\n")
        let adeq_primeiro := match recs_mun with
                             | r0 :: _ => _adeq r0 disc
                             | [] => none
        match adeq, adeq_primeiro with
        | some aq, some ap =>
          let var := (aq - ap) * 100
          let e := if 0 < var then "📈 Melhora" else if var < 0 then "📉 Piora" else "➡️ Estável"
          bloco := bloco ++ ("   • Evolução (" ++ pyStrOptInt (anos_disp.headD none) ++ "-" ++
            pyStrOptInt (anos_disp.getLastD none) ++ "): " ++ e ++ " (" ++
            fmtSigned 1 var ++ "pp)\n")
        | _, _ => pure ()
        if truthyQ adeq && decide (adeq.getD 0 < 0.5) then
          alertas_criticos := alertas_criticos + 1
          oportunidades := oportunidades ++ [(disc_nome, adeq.getD 0, insuf)]
        let vb_adeq := match ultimo_br with
                       | some b => _adeq b disc
                       | none => none
        if truthyQ adeq && truthyQ vb_adeq && decide (adeq.getD 0 < vb_adeq.getD 0) then
          abaixo_brasil := abaixo_brasil + 1
      bloco := bloco ++ ("\n" ++ SUBLINE ++ "\n🎯 OPORTUNIDADES IDENTIFICADAS\n" ++ SUBLINE ++ "\n")
      if oportunidades.isEmpty then
        bloco := bloco ++ "\n   ✅ Sem oportunidades críticas identificadas.\n"
      for op in oportunidades do
        bloco := bloco ++ ("\n   🔴 " ++ op.1 ++ ": Apenas " ++ _pct (some op.2.1) ++
          " com aprendizado adequado\n")
        bloco := bloco ++ ("      → " ++ _pct op.2.2 ++ " em nível insuficiente\n")
        bloco := bloco ++ "      → Potencial para: reforço escolar, materiais de nivelamento\n"
      let mut anos_pan : List (Option ℤ × ARec) := []
      for r in recs_mun do
        anos_pan := assocSet anos_pan r.ano r
      match assocGet anos_pan (some 2019), assocGet anos_pan (some 2021),
            assocGet anos_pan (some 2023) with
      | some r19, some r21, some r23 =>
        bloco := bloco ++ ("\n" ++ SUBLINE ++ "\n📉 IMPACTO DA PANDEMIA E RECUPERAÇÃO\n" ++ SUBLINE ++ "\n")
        for di in DISCIPLINAS do
          let disc := di.1
          let disc_nome := di.2
          let a19 := _adeq r19 disc
          let a21 := _adeq r21 disc
          let a23 := _adeq r23 disc
          if truthyQ a19 && truthyQ a21 && truthyQ a23 then
            let q19 := a19.getD 0
            let q21 := a21.getD 0
            let q23 := a23.getD 0
            let queda := (q21 - q19) * 100
            let recup := (q23 - q21) * 100
            let saldo := (q23 - q19) * 100
            bloco := bloco ++ ("\n   📘 " ++ disc_nome ++ ":\n")
            bloco := bloco ++ ("      • 2019→2021 (pandemia): " ++ fmtSigned 1 queda ++ "pp\n")
            bloco := bloco ++ ("      • 2021→2023 (recuperação): " ++ fmtSigned 1 recup ++ "pp\n")
            bloco := bloco ++ ("      • Saldo total (2019→2023): " ++ fmtSigned 1 saldo ++ "pp\n")
            if q19 ≤ q23 then
              bloco := bloco ++ "      ✅ RECUPEROU o patamar pré-pandemia\n"
            else
              bloco := bloco ++ ("      ⚠️ Ainda " ++ fmtFixed 1 |saldo| ++ "pp ABAIXO do nível pré-pandemia\n")
      | _, _, _ => pure ()
      bloco := bloco ++ ("\n" ++ LINE ++ "\nANÁLISE QUALITATIVA - COMPARATIVO COM SEMELHANTES E BRASIL\n" ++ LINE ++ "\n")
      bloco := bloco ++ ("\n📊 Comparação de " ++ mun ++ " com municípios semelhantes e média nacional\n")
      let mut cats_abaixo_br : List CatItem := []
      let mut cats_abaixo_sem : List CatItem := []
      let mut cats_acima : List CatItem := []
      for di in DISCIPLINAS do
        let disc := di.1
        let disc_nome := di.2
        let vm_adeq := _adeq ultimo_mun disc
        let vb_adeq := match ultimo_br with
                       | some b => _adeq b disc
                       | none => none
        let vs_adeq := match ultimo_sem with
                       | some s => _adeq s disc
                       | none => none
        match vm_adeq with
        | none => continue
        | some vmq =>
          let item : CatItem := ⟨disc_nome, vmq, vb_adeq, vs_adeq⟩
          if truthyQ vb_adeq && decide (vmq < vb_adeq.getD 0) then
            cats_abaixo_br := cats_abaixo_br ++ [item]
          else if truthyQ vs_adeq && decide (vmq < vs_adeq.getD 0) then
            cats_abaixo_sem := cats_abaixo_sem ++ [item]
          else
            cats_acima := cats_acima ++ [item]
      bloco := bloco ++ ("\n" ++ SUBLINE ++ "\n🔴 ABAIXO DA MÉDIA NACIONAL (BRASIL)\n" ++ SUBLINE ++ "\n")
      if cats_abaixo_br.isEmpty then
        bloco := bloco ++ "   ✅ Nenhum indicador abaixo da média nacional.\n"
      for it in cats_abaixo_br do
        let d := (it.mun - it.br.getD 0) * 100
        bloco := bloco ++ ("\n   ❌ " ++ it.disc ++ " - Adequado\n")
        bloco := bloco ++ ("      Município: " ++ _pct (some it.mun) ++ " | Brasil: " ++
          _pct it.br ++ " → " ++ fmtSigned 1 d ++ "pp\n")
      bloco := bloco ++ ("\n" ++ SUBLINE ++ "\n🟡 ABAIXO DE MUNICÍPIOS SEMELHANTES (mas acima do Brasil)\n" ++ SUBLINE ++ "\n")
      for it in cats_abaixo_sem do
        let d := (it.mun - it.sem.getD 0) * 100
        bloco := bloco ++ ("\n   ⚠️ " ++ it.disc ++ " - Adequado\n")
        bloco := bloco ++ ("      Município: " ++ _pct (some it.mun) ++ " | Semelhantes: " ++
          _pct it.sem ++ " → " ++ fmtSigned 1 d ++ "pp\n")
      bloco := bloco ++ ("\n" ++ SUBLINE ++ "\n🟢 ACIMA DAS MÉDIAS (Semelhantes e Brasil)\n" ++ SUBLINE ++ "\n")
      for it in cats_acima do
        let d_br := (it.mun - it.br.getD 0) * 100
        let d_sem := (it.mun - it.sem.getD 0) * 100
        bloco := bloco ++ ("\n   ✅ " ++ it.disc ++ " - Adequado\n")
        bloco := bloco ++ ("      Município: " ++ _pct (some it.mun) ++ " | Semelhantes: " ++
          _pct it.sem ++ " | Brasil: " ++ _pct it.br ++ "\n")
        bloco := bloco ++ ("      → " ++ fmtSigned 1 d_br ++ "pp vs Brasil | " ++
          fmtSigned 1 d_sem ++ "pp vs Semelhantes\n")
      bloco := bloco ++ ("\n" ++ LINE ++ "\n📋 RESUMO COMPARATIVO\n" ++ LINE ++ "\n\n")
      bloco := bloco ++ ("   🔴 Abaixo do Brasil:          " ++ intStr cats_abaixo_br.length ++ " disciplina(s)\n")
      bloco := bloco ++ ("   🟡 Abaixo de Semelhantes:     " ++ intStr cats_abaixo_sem.length ++ " disciplina(s)\n")
      bloco := bloco ++ ("   🟢 Acima de ambos:            " ++ intStr cats_acima.length ++ " disciplina(s)\n")
      bloco := bloco ++ ("\n" ++ LINE ++ "\n💡 CONCLUSÃO E RECOMENDAÇÕES PARA ABORDAGEM COMERCIAL\n" ++ LINE ++ "\n")
      bloco := bloco ++ ("\n📍 " ++ pyUpper mun ++ "\n")
      if 0 < alertas_criticos || 0 < abaixo_brasil then
        bloco := bloco ++ "   🔴 SITUAÇÃO: CRÍTICA\n"
        bloco := bloco ++ "   POTENCIAL DE MERCADO: ALTO\n"
        bloco := bloco ++ "   → Recomendação: reforço escolar, recuperação, materiais de nivelamento\n"
      else if 0 < cats_abaixo_sem.length then
        bloco := bloco ++ "   🟡 SITUAÇÃO: ATENÇÃO\n"
        bloco := bloco ++ "   POTENCIAL DE MERCADO: MÉDIO-ALTO\n"
        bloco := bloco ++ "   → Recomendação: soluções para alcançar patamar de municípios semelhantes\n"
      else
        bloco := bloco ++ "   🟢 SITUAÇÃO: POSITIVA\n"
        bloco := bloco ++ "   POTENCIAL DE MERCADO: MÉDIO\n"
        bloco := bloco ++ "   → Recomendação: soluções de excelência e enriquecimento curricular\n"
      bloco := bloco ++ _footer "QEdu (qedu.org.br)"
      txt_final := txt_final ++ bloco
  if txt_final == "" then
    return _hdr "RELATÓRIO COMPLETO DE APRENDIZADO - DADOS QEDU" mun env.geradoEm
        none none none none
      ++ ("\n  ⚠️ Sem dados de aprendizado disponíveis.\n" ++ _footer "QEdu (qedu.org.br)")
  return txt_final

/-! ## Report 4: IDEB (gerador.py lines 1015-1241) -/

/-- Rendering of _val applied to a cell that can be Python None (no matching
    row) or a NaN float. -/
def _valPy (v : Option (Option ℚ)) : String :=
  match v with
  | none => "N/D"
  | some i => valCell i 2

/-- Inner merge of two row lists on the ano column (pandas merge keeps left
    order, then right order). -/
def mergeRows (l r : List IdebRow) : List (IdebRow × IdebRow) :=
  l.foldl (fun acc a => acc ++ (r.filter (fun b => b.ano == a.ano)).map (fun b => (a, b))) []

/-- Inner merge of rows against the national stats on ano. -/
def mergeRowStat (l : List IdebRow) (r : List BrasilStat) : List (IdebRow × BrasilStat) :=
  l.foldl (fun acc a => acc ++ (r.filter (fun b => b.ano == a.ano)).map (fun b => (a, b))) []

def listMaxQ (l : List ℚ) : ℚ :=
  match l with
  | [] => 0
  | x :: xs => xs.foldl max x

def listMinQ (l : List ℚ) : ℚ :=
  match l with
  | [] => 0
  | x :: xs => xs.foldl min x

/-- Sort rows by year.  (pandas sort_values is not stable by default; the
    relative order of equal years is unspecified there, and unique years are
    the only case exercised by the theorems below.) -/
def sortRowsByAno (l : List IdebRow) : List IdebRow :=
  stableSortBy (fun r => (r.ano : ℚ)) l

def sortStatsByAno (l : List BrasilStat) : List BrasilStat :=
  stableSortBy (fun r => (r.ano : ℚ)) l

structure IdebStats where
  variacao : ℚ
  trend : ℚ
  maxv : ℚ
  minv : ℚ
  mun_vs_estado : Option (Option ℚ)
  mun_vs_brasil : Option (Option ℚ)
deriving Repr

def DASH40 : String := String.mk (List.replicate 40 '-')

/-- Model of gerar_txt_ideb. -/
def gerar_txt_ideb (env : Env) (ibge mun uf : String) : Except String String := do
  let li := load_ideb env.csvPresent env.munTable env.ufTable ibge
  let df_mun0 := li.1
  let df_uf := li.2.1
  let brasil_stats := li.2.2
  match df_mun0 with
  | none =>
    return _hdr "RELATÓRIO DE ANÁLISE IDEB" mun env.geradoEm none none none none
      ++ ("\n  ⚠️ Sem dados IDEB disponíveis.\n" ++ _footer "IDEB/SAEB - INEP/MEC")
  | some df_mun =>
    if df_mun.isEmpty then
      return _hdr "RELATÓRIO DE ANÁLISE IDEB" mun env.geradoEm none none none none
        ++ ("\n  ⚠️ Sem dados IDEB disponíveis.\n" ++ _footer "IDEB/SAEB - INEP/MEC")
    let mut txt := LINE ++ "\nRELATÓRIO DE ANÁLISE IDEB\n"
    txt := txt ++ ("Gerado em: " ++ env.geradoEm ++ "\n" ++ LINE ++ "\n")
    txt := txt ++ ("\n📍 ESCOPO DA ANÁLISE\n" ++ DASH40 ++ "\n")
    txt := txt ++ ("Município: " ++ mun ++ "\nEstado: " ++ uf ++ "\n")
    txt := txt ++ "Comparativo: Município vs Estado vs Brasil\n"
    txt := txt ++ "Nota: Ensino Médio usa dados da rede estadual (não há IDEB municipal para EM)\n"
    let segmentos := ["anos iniciais", "anos finais", "ensino medio"]
    for esfera in ["municipal", "estadual"] do
      let df_esf := df_mun.filter (fun r => r.esfera == esfera)
      if df_esf.isEmpty then
        continue
      let segs_usar := if esfera == "municipal" then segmentos else ["ensino medio"]
      let mut has_data := false
      for seg in segs_usar do
        let df_seg := df_esf.filter (fun r => r.segmento == seg)
        let df_ideb := if df_seg.isEmpty then []
                       else sortRowsByAno (df_seg.filter (fun r => r.indicador_tipo_nome == "IDEB"))
        if !df_ideb.isEmpty then
          has_data := true
          break
      if !has_data then
        continue
      let mut insights_esfera : List (String × List String × IdebStats) := []
      txt := txt ++ ("\n📊 HISTÓRICO IDEB POR SEGMENTO\n" ++ DASH40 ++ "\n")
      for seg in segs_usar do
        let df_seg := df_esf.filter (fun r => r.segmento == seg)
        let df_ideb := if df_seg.isEmpty then []
                       else sortRowsByAno (df_seg.filter (fun r => r.indicador_tipo_nome == "IDEB"))
        if df_ideb.isEmpty then
          continue
        let seg_display0 := (assocGet SEGMENTOS_DISPLAY seg).getD (pyUpper seg)
        let seg_display := if esfera == "estadual" && seg == "ensino medio"
                           then "ENSINO MEDIO (REDE ESTADUAL)" else seg_display0
        txt := txt ++ ("\n▶ " ++ seg_display ++ "\n" ++ SUBLINE ++ "\n")
        let df_uf_seg := match df_uf with
                         | some l =>
                           if l.isEmpty then []
                           else sortRowsByAno (l.filter (fun r =>
                             r.indicador_tipo_nome == "IDEB" && r.segmento == seg))
                         | none => []
        let df_br_seg := match brasil_stats with
                         | some l =>
                           if l.isEmpty then []
                           else sortStatsByAno (l.filter (fun r =>
                             r.indicador_tipo_nome == "IDEB" && r.segmento == seg))
                         | none => []
        if esfera == "municipal" then
          txt := txt ++ (padRight 8 "Ano" ++ " " ++ padRight 12 "Município" ++ " " ++
            padRight 12 "Estado" ++ " " ++ padRight 12 "Brasil(M)" ++ " " ++
            padRight 12 "vs Estado" ++ " " ++ padRight 12 "vs Brasil" ++ "\n")
        else
          txt := txt ++ (padRight 8 "Ano" ++ " " ++ padRight 12 "Estado" ++ " " ++
            padRight 12 "Brasil(M)" ++ " " ++ padRight 12 "Brasil(Md)" ++ " " ++
            padRight 12 "vs Média" ++ " " ++ padRight 12 "vs Mediana" ++ "\n")
        txt := txt ++ (SUBLINE ++ "\n")
        let mut anos_list : List ℤ := []
        let mut vals_list : List ℚ := []
        for row in df_ideb do
          let a := row.ano
          let vm := row.valor_numerico
          anos_list := anos_list ++ [a]
          vals_list := vals_list ++ [vm.getD 0]
          let ve : Option (Option ℚ) :=
            match df_uf_seg.filter (fun r => r.ano == a) with
            | r :: _ => some r.valor_numerico
            | [] => none
          let vbr : Option (Option ℚ × Option ℚ) :=
            match df_br_seg.filter (fun r => r.ano == a) with
            | r :: _ => some (r.mean, r.median)
            | [] => none
          let vb_mean : Option (Option ℚ) := vbr.map (fun p => p.1)
          let vb_med : Option (Option ℚ) := vbr.map (fun p => p.2)
          if esfera == "municipal" then
            let d_est := match ve, vm with
                         | some vei, some vmq =>
                           match vei with
                           | some y => fmtSigned 2 (vmq - y)
                           | none => "+nan"
                         | _, _ => ""
            let d_br := match vb_mean, vm with
                        | some vbi, some vmq =>
                          match vbi with
                          | some y => fmtSigned 2 (vmq - y)
                          | none => "+nan"
                        | _, _ => ""
            txt := txt ++ (padRight 8 (intStr a) ++ " " ++ padRight 12 (valCell vm 2) ++ " " ++
              padRight 12 (_valPy ve) ++ " " ++ padRight 12 (_valPy vb_mean) ++ " " ++
              padRight 12 d_est ++ " " ++ padRight 12 d_br ++ "\n")
          else
            let d_mean := match vb_mean, vm with
                          | some vbi, some vmq =>
                            match vbi with
                            | some y => fmtSigned 2 (vmq - y)
                            | none => "+nan"
                          | _, _ => ""
            let d_med := match vb_med, vm with
                         | some vbi, some vmq =>
                           match vbi with
                           | some y => fmtSigned 2 (vmq - y)
                           | none => "+nan"
                         | _, _ => ""
            txt := txt ++ (padRight 8 (intStr a) ++ " " ++ padRight 12 (valCell vm 2) ++ " " ++
              padRight 12 (_valPy vb_mean) ++ " " ++ padRight 12 (_valPy vb_med) ++ " " ++
              padRight 12 d_mean ++ " " ++ padRight 12 d_med ++ "\n")
        let vals_clean := vals_list.filter (fun v => decide (0 < v))
        let anos_clean := ((anos_list.zip vals_list).filter
          (fun p => decide (0 < p.2))).map (fun p => p.1)
        match vals_clean with
        | v0 :: _ :: _ =>
          let variacao := if v0 != 0 then ((vals_clean.getLastD v0 - v0) / v0) * 100 else 0
          let trend := _trend_slope env.npAvailable (anos_clean.map (fun a => (a : ℚ))) vals_clean
          let mut insight_lines : List String := []
          if esfera == "municipal" && !df_uf_seg.isEmpty then
            let merged := mergeRows df_ideb df_uf_seg
            if !merged.isEmpty then
              let diff_est := listMean (merged.filterMap
                (fun p => subPyF p.1.valor_numerico p.2.valor_numerico))
              if gtPyF diff_est 0.3 then
                insight_lines := insight_lines ++
                  ["  ✅ Município supera média estadual em " ++ fmtQorNan 2 diff_est ++ " pontos"]
              else if ltPyF diff_est (-0.3) then
                insight_lines := insight_lines ++
                  ["  ⚠️ Município está " ++ fmtFixed 2 |(diff_est.getD 0)| ++ " pontos abaixo do estado"]
              else
                insight_lines := insight_lines ++
                  ["  ➡️ Município próximo do estado (" ++ fmtSignedOrNan 2 diff_est ++ " pontos)"]
          if !df_br_seg.isEmpty then
            if esfera == "municipal" then
              let merged_br := mergeRowStat df_ideb df_br_seg
              if !merged_br.isEmpty then
                let diff_br := listMean (merged_br.filterMap
                  (fun p => subPyF p.1.valor_numerico p.2.mean))
                if gtPyF diff_br 0.3 then
                  insight_lines := insight_lines ++
                    ["  ✅ Município supera média nacional em " ++ fmtQorNan 2 diff_br ++ " pontos"]
                else if ltPyF diff_br (-0.3) then
                  insight_lines := insight_lines ++
                    ["  ⚠️ Município está " ++ fmtFixed 2 |(diff_br.getD 0)| ++ " pontos abaixo da média nacional"]
            else
              let merged_br := mergeRowStat df_ideb df_br_seg
              if !merged_br.isEmpty then
                let diff_mean := listMean (merged_br.filterMap
                  (fun p => subPyF p.1.valor_numerico p.2.mean))
                let diff_med := listMean (merged_br.filterMap
                  (fun p => subPyF p.1.valor_numerico p.2.median))
                if gtPyF diff_mean 0.3 then
                  insight_lines := insight_lines ++
                    ["  ✅ Supera média nacional em " ++ fmtQorNan 2 diff_mean ++ " pontos"]
                if gtPyF diff_med 0.3 then
                  insight_lines := insight_lines ++
                    ["  ✅ Supera mediana nacional em " ++ fmtQorNan 2 diff_med ++ " pontos"]
          if 0.05 < trend then
            insight_lines := insight_lines ++
              ["  📈 Tendência de crescimento (+" ++ fmtFixed 3 trend ++ "/ano)"]
          else if trend < -0.05 then
            insight_lines := insight_lines ++
              ["  📉 Tendência de queda (" ++ fmtFixed 3 trend ++ "/ano)"]
          else
            insight_lines := insight_lines ++
              ["  ➡️ Tendência estável (" ++ fmtSigned 3 trend ++ "/ano)"]
          if 20 < variacao then
            insight_lines := insight_lines ++
              ["  🚀 Crescimento expressivo de " ++ fmtFixed 1 variacao ++ "% no período"]
          else if variacao < -10 then
            insight_lines := insight_lines ++
              ["  🔻 Queda de " ++ fmtFixed 1 |variacao| ++ "% no período"]
          let mut anos_dict : List (ℤ × ℚ) := []
          for p in anos_clean.zip vals_clean do
            anos_dict := assocSet anos_dict p.1 p.2
          match assocGet anos_dict 2019, assocGet anos_dict 2021 with
          | some y19, some y21 =>
            let d_pan := y21 - y19
            if d_pan < -0.3 then
              insight_lines := insight_lines ++
                ["  🦠 Impacto da pandemia detectado (" ++ fmtSigned 1 d_pan ++ " pontos 2019→2021)"]
            else if 0.3 < d_pan then
              insight_lines := insight_lines ++
                ["  💪 Resiliência na pandemia (crescimento de " ++ fmtFixed 1 d_pan ++ " pontos 2019→2021)"]
          | _, _ => pure ()
          match assocGet anos_dict 2021, assocGet anos_dict 2023 with
          | some y21, some y23 =>
            let d_rec := y23 - y21
            if 0.2 < d_rec then
              insight_lines := insight_lines ++
                ["  🔄 " ++ seg_display ++ " : Recuperação pós-pandemia (+" ++ fmtFixed 1 d_rec ++ " pontos 2021→2023)"]
            else if d_rec < -0.2 then
              insight_lines := insight_lines ++
                ["  ⚠️ " ++ seg_display ++ " : Continuidade de queda pós-pandemia (" ++ fmtSigned 1 d_rec ++ " pontos 2021→2023)"]
          | _, _ => pure ()
          let mve : Option (Option ℚ) :=
            if esfera == "municipal" && !df_uf_seg.isEmpty then
              let merged_tmp := mergeRows df_ideb df_uf_seg
              if merged_tmp.isEmpty then none
              else some (listMean (merged_tmp.filterMap
                (fun p => subPyF p.1.valor_numerico p.2.valor_numerico)))
            else none
          let mvb : Option (Option ℚ) :=
            if !df_br_seg.isEmpty then
              let merged_tmp2 := mergeRowStat df_ideb df_br_seg
              if merged_tmp2.isEmpty then none
              else some (listMean (merged_tmp2.filterMap
                (fun p => subPyF p.1.valor_numerico p.2.mean)))
            else none
          insights_esfera := insights_esfera ++ [(seg_display, insight_lines,
            { variacao := variacao, trend := trend, maxv := listMaxQ vals_clean
            , minv := listMinQ vals_clean, mun_vs_estado := mve, mun_vs_brasil := mvb })]
        | _ => pure ()
      if !insights_esfera.isEmpty then
        txt := txt ++ ("\n\n💡 INSIGHTS E OBSERVAÇÕES\n" ++ LINE ++ "\n")
        for ins in insights_esfera do
          txt := txt ++ ("\n▶ " ++ ins.1 ++ "\n" ++ DASH40 ++ "\n")
          for l in ins.2.1 do
            txt := txt ++ (l ++ "\n")
        txt := txt ++ ("\n\n📈 ESTATÍSTICAS ADICIONAIS\n" ++ LINE ++ "\n")
        for ins in insights_esfera do
          let stats := ins.2.2
          txt := txt ++ ("\n▶ " ++ ins.1 ++ "\n" ++ DASH40 ++ "\n")
          txt := txt ++ ("  • Variação total (%): " ++ fmtFixed 2 stats.variacao ++ "\n")
          txt := txt ++ ("  • Tendência (pts/ano): " ++ fmtFixed 2 stats.trend ++ "\n")
          match stats.mun_vs_estado with
          | some v => txt := txt ++ ("  • Município vs Estado: " ++ fmtQorNan 2 v ++ "\n")
          | none => pure ()
          match stats.mun_vs_brasil with
          | some v => txt := txt ++ ("  • Município vs Brasil: " ++ fmtQorNan 2 v ++ "\n")
          | none => pure ()
          txt := txt ++ ("  • Maior valor: " ++ fmtFixed 2 stats.maxv ++ "\n")
          txt := txt ++ ("  • Menor valor: " ++ fmtFixed 2 stats.minv ++ "\n")
    txt := txt ++ ("\n" ++ LINE ++ "\nFim do Relatório\n")
    return txt

/-! ## Structured data collector (gerador.py lines 1596-1678) -/

/-- Python round(q, 2): half-even at two decimals. -/
def pyRound2 (q : ℚ) : ℚ := (pyRound (q * 100) : ℚ) / 100

/-- The  v * 100 if abs(v) <= 1.01 else v  scaling of the collector. -/
def coletaScale (v : ℚ) : ℚ := if |v| ≤ 1.01 then v * 100 else v

structure DiscD where
  entidade : List (String × ℚ)
  brasil : List (String × ℚ)
deriving Repr, DecidableEq

structure CicloD where
  ano : Option ℤ
  disciplinas : List (String × DiscD)
deriving Repr, DecidableEq

structure CensoD where
  ano : ℤ
  qtd_escolas : Option ℤ
  matriculas : List (String × ℤ)
  total_matriculas : ℤ
deriving Repr, DecidableEq

structure InfraD where
  ano : ℤ
  indicadores : List (String × List (String × ℚ))
deriving Repr, DecidableEq

structure TaxaD where
  nome : String
  ano : ℤ
  aprovacao_pct : Option ℚ
  reprovacao_pct : Option ℚ
  abandono_pct : Option ℚ
deriving Repr, DecidableEq

/-- The JSON-friendly structured summary; an Option none models an absent
    top-level key. -/
structure DadosEstruturados where
  entidade : String
  uf : String
  tipo : String
  aprendizado : Option (List (String × CicloD))
  censo : Option CensoD
  infra : Option InfraD
  taxa_rendimento : Option (List (String × TaxaD))
deriving Repr, DecidableEq

/-- Model of coletar_dados_estruturados. -/
def coletar_dados_estruturados (env : Env) (ibge mun uf : String) :
    DadosEstruturados := Id.run do
  let mut aprendizado : List (String × CicloD) := []
  for ci in CICLOS do
    let cid := ci.1
    let raw := (fetch_aprendizado env.net ibge 5 cid).1
    let ext := _extrair_territorios raw ibge
    let mun_recs := ext.1
    let br_recs := ext.2.2
    match mun_recs with
    | [] => continue
    | m0 :: _ =>
      let ultimo := (stableSortBy (fun x => ((x.ano.getD 0 : ℤ) : ℚ)) mun_recs).getLastD m0
      let ultimo_br := match br_recs with
                       | [] => none
                       | _ => (stableSortBy (fun x => ((x.ano.getD 0 : ℤ) : ℚ)) br_recs).getLast?
      let mut disciplinas : List (String × DiscD) := []
      for di in DISCIPLINAS do
        let disc := di.1
        let mut ent_d : List (String × ℚ) := []
        for ni in NIVEIS do
          let nk := ni.1
          let v := if nk == "adequado" then _adeq ultimo disc else ultimo.getNivel disc nk
          match v with
          | some q => ent_d := assocSet ent_d nk (pyRound2 (coletaScale q))
          | none => pure ()
        let mut br_d : List (String × ℚ) := []
        match ultimo_br with
        | some ub =>
          for ni in NIVEIS do
            let nk := ni.1
            let v := if nk == "adequado" then _adeq ub disc else ub.getNivel disc nk
            match v with
            | some q => br_d := assocSet br_d nk (pyRound2 (coletaScale q))
            | none => pure ()
        | none => pure ()
        disciplinas := assocSet disciplinas di.2 ⟨ent_d, br_d⟩
      aprendizado := assocSet aprendizado cid ⟨ultimo.ano, disciplinas⟩
  let mut censoD : Option CensoD := none
  let fc := fetch_censo env.net env.anoAtual ibge 3 none 0 0
  match fc.1.1 with
  | some resp =>
    match resp.censo with
    | some c =>
      let mut matriculas : List (String × ℤ) := []
      let mut total : ℤ := 0
      for ce in CAMPOS_MATRICULA do
        match c.get ce.1 with
        | some v =>
          matriculas := assocSet matriculas ce.2 v
          total := total + v
        | none => pure ()
      censoD := some ⟨fc.1.2, c.qtd_escolas, matriculas, total⟩
    | none => pure ()
  | none => pure ()
  let mut infraD : Option InfraD := none
  let fi := fetch_infra env.net env.anoAtual ibge 3 none
  match fi.1.1 with
  | some secs =>
    let mut indicadores : List (String × List (String × ℚ)) := []
    for sec in secs do
      for item in sec.items do
        let label := item.label
        for v in item.values do
          match v.value with
          | some val =>
            let inner := (assocGet indicadores label).getD []
            indicadores := assocSet indicadores label
              (assocSet inner (pyLower v.entidade) (pyRound2 (val * 100)))
          | none => pure ()
    infraD := some ⟨fi.1.2, indicadores⟩
  | none => pure ()
  let mut taxa_d : List (String × TaxaD) := []
  for ci in CICLOS do
    let ft := fetch_taxa env.net env.anoAtual ibge ci.1 0 none 0
    match ft.1.1 with
    | some raw =>
      match _get_ultimo_reg raw.municipio with
      | some reg =>
        let r := _get_rendimento reg
        taxa_d := assocSet taxa_d ci.1
          ⟨ci.2, ft.1.2,
           (match r.1 with
            | some ap => if ap != 0 then some (pyRound2 (ap * 100)) else none
            | none => none),
           (match r.2.1 with
            | some rp => if rp != 0 then some (pyRound2 (rp * 100)) else none
            | none => none),
           (match r.2.2 with
            | some ab => if ab != 0 then some (pyRound2 (ab * 100)) else none
            | none => none)⟩
      | none => pure ()
    | none => pure ()
  return { entidade := mun, uf := uf
         , tipo := if is_estado ibge then "estado" else "municipio"
         , aprendizado := if aprendizado.isEmpty then none else some aprendizado
         , censo := censoD, infra := infraD
         , taxa_rendimento := if taxa_d.isEmpty then none else some taxa_d }

/-! ## Orchestrator (gerador.py lines 1687-1721) -/

structure Bundle where
  municipio : String
  uf : String
  ibge : String
  arquivos : List (String × String)
  dados_estruturados : DadosEstruturados

/-- The renderer loop of gerar_todos with its try/except: a failing renderer
    contributes the inline error placeholder instead of aborting. -/
def gerarArquivos (slug : String)
    (geradores : List (String × (String → String → String → Except String String)))
    (ibge mun uf : String) : List (String × String) :=
  geradores.map (fun g =>
    (slug ++ "_" ++ g.1 ++ ".txt",
     match g.2 ibge mun uf with
     | .ok t => t
     | .error e => "❌ Erro ao gerar " ++ g.1 ++ ": " ++ e))

/-- The five renderers in orchestration order. -/
def geradoresOf (env : Env) :
    List (String × (String → String → String → Except String String)) :=
  [("aprendizado", gerar_txt_aprendizado env),
   ("infra", gerar_txt_infra env),
   ("censo", gerar_txt_censo env),
   ("ideb", gerar_txt_ideb env),
   ("taxa_rendimento", gerar_txt_taxa env)]

/-- Model of gerar_todos.  The prior request cache is cleared on entry
    (line 1689) and the run proceeds on the canonical per-request values
    (lemma fetchJson_canonical); the optional file writing is I/O outside
    the model. -/
def gerar_todos (env : Env) (prior : FetchCache Req Unit) (ibge : String) : Bundle :=
  let _cache0 := clearCache prior
  let mu := descobrir_municipio env ibge
  let mun := mu.1
  let uf_sigla := mu.2
  let slug := _slug mun
  let arquivos := gerarArquivos slug (geradoresOf env) ibge mun uf_sigla
  let dados := coletar_dados_estruturados env ibge mun uf_sigla
  { municipio := mun, uf := uf_sigla, ibge := ibge
  , arquivos := arquivos, dados_estruturados := dados }

/-! ## Non-empty-payload tests of the year-fallback loops (for the
    year-fallback claims). -/

/-- The year-loop stop test of fetch_censo at one year. -/
def censoHit (net : Net) (ibge : String) (dep loc oferta y : ℤ) : Bool :=
  match net.censo ibge y dep loc oferta with
  | some d => d.censo.isSome
  | none => false

/-- The year-loop stop test of fetch_infra at one year. -/
def infraHit (net : Net) (ibge : String) (dep y : ℤ) : Bool :=
  match net.infra ibge dep y with
  | some l => infraHasValues l
  | none => false

/-- The year-loop stop test of fetch_taxa at one year. -/
def taxaHit (net : Net) (ibge : String) (dep : ℤ) (ciclo : String) (loc y : ℤ) : Bool :=
  match net.taxa ibge dep y ciclo loc with
  | some d => taxaTruthy d
  | none => false

/-! ## Concrete run fixtures used by the counterexamples -/

/-- A no-data environment: every fetch fails and the reference CSVs are
    absent. -/
def noDataEnv (aa : ℤ) (ge : String) (np : Bool) : Env :=
  { net := noDataNet, anoAtual := aa, geradoEm := ge, npAvailable := np
  , csvPresent := false, munTable := [], ufTable := [] }

/-- A municipal IDEB reference row for Fortaleza (code 2304400). -/
def fortalezaRow : IdebRow :=
  { codigo_ibge := "2304400", indicador_municipio := "Fortaleza"
  , indicador_uf := "CE", esfera := "municipal", segmento := "Anos Iniciais"
  , indicador_tipo_nome := "IDEB", ano := 2023, valor_numerico := some 5 }

/-- A state IDEB reference row for CE. -/
def ceRow : IdebRow :=
  { codigo_ibge := "x", indicador_municipio := "x"
  , indicador_uf := "CE", esfera := "estadual", segmento := "Anos Iniciais"
  , indicador_tipo_nome := "IDEB", ano := 2023, valor_numerico := some (9/2) }

/-- A state IDEB reference row for SP. -/
def spRow : IdebRow :=
  { codigo_ibge := "x", indicador_municipio := "x"
  , indicador_uf := "SP", esfera := "estadual", segmento := "Anos Iniciais"
  , indicador_tipo_nome := "IDEB", ano := 2023, valor_numerico := some (11/2) }

/-- The environment of the C1 counterexample: every remote fetch returns no
    data, while the local IDEB reference tables hold rows for Fortaleza. -/
def envCE : Env :=
  { net := noDataNet, anoAtual := 2026, geradoEm := "01/01/2026 00:00"
  , npAvailable := false, csvPresent := true
  , munTable := [fortalezaRow], ufTable := [ceRow, spRow] }

/-- An aprendizado record for the C5 counterexample: lp_basico is missing,
    all other level values are present and non-zero. -/
def recC5 : ARec :=
  { territorio := some { ibge_id := some 3550308 }
  , ano := some 2023
  , lp_adequado := none, lp_avancado := some 0.252, lp_proficiente := some 0.301
  , lp_basico := none, lp_insuficiente := some 0.204
  , mt_adequado := some 0.612, mt_avancado := some 0.213
  , mt_proficiente := some 0.399, mt_basico := some 0.287
  , mt_insuficiente := some 0.101 }

/-- The environment of the C5 counterexample: only the AI aprendizado fetch
    has data (the single record recC5). -/
def envC5 : Env :=
  { net :=
    { censo := fun _ _ _ _ _ => none
    , infra := fun _ _ _ => none
    , aprendizado := fun _ _ cid => if cid == "AI" then some [[recC5]] else none
    , taxa := fun _ _ _ _ _ => none }
  , anoAtual := 2026, geradoEm := "01/01/2026 00:00", npAvailable := false
  , csvPresent := false, munTable := [], ufTable := [] }

/-! ## End of definitions / start of theorems -/

theorem string_append_assoc (a b c : String) : a ++ b ++ c = a ++ (b ++ c) := by
  cases a with
  | mk la =>
    cases b with
    | mk lb =>
      cases c with
      | mk lc =>
        show String.mk (la ++ lb ++ lc) = String.mk (la ++ (lb ++ lc))
        rw [List.append_assoc]

theorem hasSub_left (s t pat : String) (h : HasSub t pat) : HasSub (s ++ t) pat := by
  obtain ⟨p, q, hpq⟩ := h
  exact ⟨s ++ p, q, by rw [hpq, string_append_assoc]⟩

theorem hasSub_right (s t pat : String) (h : HasSub s pat) : HasSub (s ++ t) pat := by
  obtain ⟨p, q, hpq⟩ := h
  refine ⟨p, q ++ t, ?_⟩
  rw [hpq, string_append_assoc, string_append_assoc]

theorem hasSub_self (pat : String) : HasSub pat pat :=
  ⟨"", "", by cases pat with | mk l => show String.mk _ = _; simp [List.append_nil]⟩

theorem cacheConsistent_nil {κ α : Type} [DecidableEq κ] (net : κ → ℕ → Option α) :
    CacheConsistent net ([] : FetchCache κ α) := by
  intro k v h
  simp [cacheLookup] at h

/-- First call on a consistent cache yields the canonical value and keeps the
    cache consistent: this justifies modelling the renderers over the pure
    oracle canonicalFetch. -/
theorem fetchJson_canonical {κ α : Type} [DecidableEq κ] (net : κ → ℕ → Option α)
    (c : FetchCache κ α) (key : κ) (hc : CacheConsistent net c) :
    (fetchJson net c key 3).1 = canonicalFetch net key ∧
      CacheConsistent net (fetchJson net c key 3).2.1 := by
  unfold fetchJson
  cases hl : cacheLookup c key with
  | some v =>
    simp only
    exact ⟨hc key v hl, hc⟩
  | none =>
    simp only
    refine ⟨rfl, ?_⟩
    intro k v h
    unfold cacheLookup at h
    by_cases hk : key = k
    · subst hk
      simp at h
      subst h
      rfl
    · simp [hk] at h
      exact hc k v h

/-- Second identical fetch: same result, same cache, zero network requests. -/
theorem fetchJson_idem (κ α : Type) [DecidableEq κ] (net : κ → ℕ → Option α)
    (cache : FetchCache κ α) (key : κ) (t : ℕ) (r : Option α)
    (c2 : FetchCache κ α) (n : ℕ) (h : fetchJson net cache key t = (r, c2, n)) :
    fetchJson net c2 key t = (r, c2, 0) := by
  unfold fetchJson at h ⊢
  cases hl : cacheLookup cache key with
  | some v =>
    rw [hl] at h
    simp only [Prod.mk.injEq] at h
    obtain ⟨h1, h2, _⟩ := h
    subst h1
    subst h2
    rw [hl]
  | none =>
    rw [hl] at h
    by_cases ht : t = 0
    · subst ht
      rw [if_pos rfl] at h
      simp only [Prod.mk.injEq] at h
      obtain ⟨h1, h2, _⟩ := h
      subst h1
      subst h2
      rw [hl, if_pos rfl]
    · rw [if_neg ht] at h
      simp only [Prod.mk.injEq] at h
      obtain ⟨h1, h2, _⟩ := h
      subst h1
      subst h2
      have hck : cacheLookup ((key, (fetchLoop (net key) 0 t).1) :: cache) key
          = some (fetchLoop (net key) 0 t).1 := by
        unfold cacheLookup
        simp
      rw [hck]

/-- Claim C2: within one run, a repeated fetch_json call with the same
    (url, parameter-set) key returns a result identical to the first call
    without issuing any network request, and gerar_todos discards the prior
    cache on entry (the run result is independent of the cache it starts
    from, which the orchestrator clears before any fetch). -/
theorem claim_C2 :
    (∀ (κ α : Type), ∀ _i : DecidableEq κ, ∀ (net : κ → ℕ → Option α)
      (cache : FetchCache κ α) (key : κ) (t : ℕ) (r : Option α)
      (c2 : FetchCache κ α) (n : ℕ),
      fetchJson net cache key t = (r, c2, n) →
      fetchJson net c2 key t = (r, c2, 0)) ∧
    (∀ (env : Env) (prior prior2 : FetchCache Req Unit) (ibge : String),
      gerar_todos env prior ibge = gerar_todos env prior2 ibge) := by
  constructor
  · intro κ α i net cache key t r c2 n h
    exact fetchJson_idem κ α net cache key t r c2 n h
  · intro env prior prior2 ibge
    rfl

/-- Claim C2 witness: a concrete first call followed by the repeat call. -/
theorem claim_C2_witness :
    fetchJson (fun (_ : ℕ) (_ : ℕ) => some 7) [] 0 3 = (some 7, [(0, some 7)], 1) ∧
    fetchJson (fun (_ : ℕ) (_ : ℕ) => some 7) [(0, some 7)] 0 3 = (some 7, [(0, some 7)], 0) :=
  ⟨rfl, claim_C2.1 ℕ ℕ inferInstance (fun _ _ => some 7) [] 0 3 (some 7) [(0, some 7)] 1 rfl⟩

/-- Claim C10: when fetch_json exhausts its three attempts, the failure None
    is itself cached, and every later call on the same key in the run
    returns None from the cache with zero further network attempts. -/
theorem claim_C10 (κ α : Type) (_i : DecidableEq κ) (net : κ → ℕ → Option α)
    (key : κ) (cache : FetchCache κ α)
    (hfail : ∀ i, i < 3 → net key i = none)
    (hmiss : cacheLookup cache key = none) :
    fetchJson net cache key 3 = (none, (key, none) :: cache, 3) ∧
    fetchJson net ((key, none) :: cache) key 3 = (none, (key, none) :: cache, 0) := by
  have h0 := hfail 0 (by norm_num)
  have h1 := hfail 1 (by norm_num)
  have h2 := hfail 2 (by norm_num)
  constructor
  · unfold fetchJson
    rw [hmiss]
    simp only [if_neg (by norm_num : (3 : ℕ) ≠ 0)]
    unfold fetchLoop
    rw [h0]
    simp only [if_neg (by norm_num : (2 : ℕ) ≠ 0)]
    unfold fetchLoop
    rw [h1]
    simp only [if_neg (by norm_num : (1 : ℕ) ≠ 0)]
    unfold fetchLoop
    rw [h2]
    simp
  · unfold fetchJson
    unfold cacheLookup
    simp

/-- Claim C10 witness: an always-failing network on an empty cache. -/
theorem claim_C10_witness :
    ((∀ i : ℕ, i < 3 → (fun (_ : ℕ) (_ : ℕ) => (none : Option ℕ)) 0 i = none) ∧
     cacheLookup ([] : FetchCache ℕ ℕ) 0 = none) ∧
    (fetchJson (fun (_ : ℕ) (_ : ℕ) => (none : Option ℕ)) [] 0 3
       = (none, [(0, none)], 3) ∧
     fetchJson (fun (_ : ℕ) (_ : ℕ) => (none : Option ℕ)) [(0, none)] 0 3
       = (none, [(0, none)], 0)) :=
  ⟨⟨fun _ _ => rfl, rfl⟩,
   claim_C10 ℕ ℕ inferInstance (fun _ _ => none) 0 [] (fun _ _ => rfl) rfl⟩

/-- Claim C8: a request whose territory code (after stripping) is not all
    digits or whose digit count is outside 2 and 7 is answered with status
    400, and the generator — hence any network fetch — is never invoked:
    the response is the same for every generator. -/
theorem claim_C8 (β : Type) (gen gen2 : String → Except String β) (ibge : String)
    (hbad : (pyIsdigit (pyStrip ibge) &&
      ((pyStrip ibge).length == 2 || (pyStrip ibge).length == 7)) = false) :
    (_gerar gen ibge = .inl
      ("Código IBGE inválido: " ++ strApos ++ pyStrip ibge ++ strApos ++
       ". Use 7 dígitos (município) ou 2 dígitos (estado).", 400)) ∧
    _gerar gen ibge = _gerar gen2 ibge := by
  have hv : _validar_ibge ibge = .error
      ("Código IBGE inválido: " ++ strApos ++ pyStrip ibge ++ strApos ++
       ". Use 7 dígitos (município) ou 2 dígitos (estado).", 400) := by
    unfold _validar_ibge
    simp only [hbad]
    rfl
  constructor
  · unfold _gerar
    rw [hv]
  · unfold _gerar
    rw [hv]

/-- Claim C8 witness at the malformed code "12a". -/
theorem claim_C8_witness :
    ((pyIsdigit (pyStrip "12a") &&
      ((pyStrip "12a").length == 2 || (pyStrip "12a").length == 7)) = false) ∧
    ((_gerar (fun _ => Except.ok (0 : ℕ)) "12a" = .inl
      ("Código IBGE inválido: " ++ strApos ++ pyStrip "12a" ++ strApos ++
       ". Use 7 dígitos (município) ou 2 dígitos (estado).", 400)) ∧
     _gerar (fun _ => Except.ok (0 : ℕ)) "12a"
       = _gerar (fun _ => Except.error "boom") "12a") :=
  ⟨by decide, claim_C8 ℕ (fun _ => Except.ok 0) (fun _ => Except.error "boom") "12a" (by decide)⟩

/-- Claim C3 counterexample: at input 1.005 the source classifier
    _classificar_desempenho disagrees with the claimed single |v| ≤ 1.01
    convention: the code compares the raw 1.005 against the thresholds and
    reports the critical tier, while the claimed rule scales to 100.5 and
    would report the good tier. -/
theorem claim_C3_counterexample :
    _classificar_desempenho (some 1.005)
      = ("Desempenho crítico - oportunidade de atuação", "🔴") ∧
    classificarDesempenhoSpec (some 1.005) = ("Bom desempenho", "✅") ∧
    _classificar_desempenho (some 1.005) ≠ classificarDesempenhoSpec (some 1.005) := by
  refine ⟨by decide, by decide, ?_⟩
  intro h
  have h2 := congrArg Prod.snd h
  simp only at h2
  exact absurd h2 (by decide)

/-- Claim C3 amended: _pct, _pp, _safe_taxa and _classificar_taxa all apply
    the |v| ≤ 1.01 normalization; _classificar_desempenho instead scales
    exactly when v ≤ 1 (no absolute value, threshold 1).  The two
    conventions classify identically outside the interval (1, 1.01]. -/
theorem claim_C3 :
    (∀ v : ℚ, _pct (some v) = fmtFixed 1 (specNorm v) ++ "%") ∧
    (∀ (v : ℚ) (d : ℕ), _pp (some v) d = fmtSigned d (specNorm v) ++ "pp") ∧
    (∀ v : ℚ, _safe_taxa (some v) = fmtFixed 1 (specNorm v) ++ "%") ∧
    (∀ (v : ℚ) (t : String), _classificar_taxa (some v) t = taxaTiers t (specNorm v)) ∧
    (∀ v : ℚ, _classificar_desempenho (some v)
      = desempenhoTiers (if v ≤ 1 then v * 100 else v)) ∧
    (∀ v : ℚ, v ≤ 1 ∨ 1.01 < v →
      _classificar_desempenho (some v) = classificarDesempenhoSpec (some v)) := by
  refine ⟨fun v => rfl, fun v d => rfl, fun v => rfl, fun v t => rfl, fun v => rfl, ?_⟩
  intro v hv
  unfold _classificar_desempenho classificarDesempenhoSpec specNorm
  dsimp only
  rcases hv with hle | hgt
  · rw [if_pos hle]
    by_cases habs : |v| ≤ 1.01
    · rw [if_pos habs]
    · rw [if_neg habs]
      have hneg : v < -1.01 := by
        rcases abs_cases v with ⟨he, _⟩ | ⟨he, _⟩
        · exfalso
          apply habs
          rw [he]
          linarith
        · have : 1.01 < -v := by
            rw [← he]
            exact lt_of_not_le habs
          linarith
      have c1 : ¬ (70 : ℚ) ≤ v * 100 := by nlinarith
      have c2 : ¬ (50 : ℚ) ≤ v * 100 := by nlinarith
      have c3 : ¬ (70 : ℚ) ≤ v := by linarith
      have c4 : ¬ (50 : ℚ) ≤ v := by linarith
      simp only [if_neg c1, if_neg c2, if_neg c3, if_neg c4]
  · have h1 : ¬ v ≤ 1 := by linarith
    have h2 : ¬ |v| ≤ 1.01 := by
      rw [abs_of_pos (by linarith : (0:ℚ) < v)]
      linarith
    rw [if_neg h1, if_neg h2]

/-- Claim C3 amended witness: the agreement hypothesis discharged at 0.8. -/
theorem claim_C3_witness :
    ((0.8 : ℚ) ≤ 1 ∨ (1.01 : ℚ) < 0.8) ∧
    _classificar_desempenho (some 0.8) = classificarDesempenhoSpec (some 0.8) :=
  ⟨Or.inl (by norm_num), claim_C3.2.2.2.2.2 0.8 (Or.inl (by norm_num))⟩

/-- Claim C4 counterexample: the percentage formatter is not invariant under
    pre-scaling on small fractions: 0.005 (half a percent) renders as 0.5
    percent while its scaled form 0.5 renders as 50.0 percent, because both
    fall under the |v| ≤ 1.01 branch. -/
theorem claim_C4_counterexample :
    _pct (some 0.005) = "0.5%" ∧
    _pct (some (100 * (0.005 : ℚ))) = "50.0%" ∧
    _pct (some 0.005) ≠ _pct (some (100 * (0.005 : ℚ))) := by
  refine ⟨by decide, by decide, ?_⟩
  intro h
  rw [show _pct (some 0.005) = "0.5%" by decide,
      show _pct (some (100 * (0.005 : ℚ))) = "50.0%" by decide] at h
  exact absurd h (by decide)

/-- Claim C4 amended: _pct is invariant under pre-scaling for every fraction
    v with 0.0101 < |v| ≤ 1.01 (so that the scaled form leaves the
    multiply-by-100 region). -/
theorem claim_C4 (v : ℚ) (h1 : 0.0101 < |v|) (h2 : |v| ≤ 1.01) :
    _pct (some v) = _pct (some (100 * v)) := by
  unfold _pct
  dsimp only
  have habs : |(100 : ℚ) * v| = 100 * |v| := by
    rw [abs_mul]
    norm_num
  have hbig : ¬ |(100 : ℚ) * v| ≤ 1.01 := by
    rw [habs]
    nlinarith
  rw [if_pos h2, if_neg hbig, mul_comm]

/-- Centered product sum expansion over zipped lists of equal length. -/
theorem centeredSum (xs : List ℚ) (a b : ℚ) :
    ∀ ys : List ℚ, xs.length = ys.length →
    ((xs.zip ys).map (fun p => (p.1 - a) * (p.2 - b))).sum
      = ((xs.zip ys).map (fun p => p.1 * p.2)).sum - a * ys.sum - b * xs.sum
        + xs.length * (a * b) := by
  induction xs with
  | nil =>
    intro ys h
    cases ys with
    | nil => simp
    | cons y ys => simp at h
  | cons x xs ih =>
    intro ys h
    cases ys with
    | nil => simp at h
    | cons y ys =>
      simp only [List.zip_cons_cons, List.map_cons, List.sum_cons, List.length_cons,
        List.sum_cons] at h ⊢
      have hlen : xs.length = ys.length := by omega
      rw [ih ys hlen]
      push_cast
      ring

/-- Centered square sum expansion. -/
theorem centeredSq (a : ℚ) : ∀ xs : List ℚ,
    (xs.map (fun x => (x - a) * (x - a))).sum
      = (xs.map (fun x => x * x)).sum - 2 * a * xs.sum + xs.length * (a * a) := by
  intro xs
  induction xs with
  | nil => simp
  | cons x xs ih =>
    simp only [List.map_cons, List.sum_cons, List.length_cons]
    rw [ih]
    push_cast
    ring

/-- Division of two fractions over a common nonzero denominator. -/
theorem div_div_div_eq_div {n a b : ℚ} (hn : n ≠ 0) (hb : b ≠ 0) :
    a / b = a / n / (b / n) := by
  field_simp

/-- The normal-equation slope equals the centered covariance/variance slope
    for equal-length series with at least two points. -/
theorem polyfit_eq_lsq (xs ys : List ℚ) (hlen : xs.length = ys.length)
    (h2 : 2 ≤ xs.length) :
    polyfitSlope xs ys = leastSquaresSlope xs ys := by
  unfold polyfitSlope leastSquaresSlope
  dsimp only
  have hn : ((xs.length : ℚ)) ≠ 0 := by
    have hc : (2 : ℚ) ≤ (xs.length : ℚ) := by exact_mod_cast h2
    linarith
  rw [centeredSum xs (xs.sum / xs.length) (ys.sum / xs.length) ys hlen]
  rw [centeredSq (xs.sum / xs.length) xs]
  set n : ℚ := (xs.length : ℚ) with hn_def
  set sx : ℚ := xs.sum
  set sy : ℚ := ys.sum
  set sxy : ℚ := ((xs.zip ys).map (fun p => p.1 * p.2)).sum
  set sxx : ℚ := (xs.map (fun x => x * x)).sum
  have e1 : sxy - sx / n * sy - sy / n * sx + n * (sx / n * (sy / n))
      = (n * sxy - sx * sy) / n := by
    field_simp
    ring
  have e2 : sxx - 2 * (sx / n) * sx + n * (sx / n * (sx / n))
      = (n * sxx - sx * sx) / n := by
    field_simp
    ring
  rw [e1, e2]
  rcases eq_or_ne (n * sxx - sx * sx) 0 with hB | hB
  · rw [hB]
    simp
  · rw [div_div_div_eq_div hn hB]

/-- Claim C7: for a series of at least two (year, value) pairs, _trend_slope
    returns the least-squares linear-regression slope (centered covariance
    over variance form) when numpy is available, and the endpoint secant
    (last − first)/(yearLast − yearFirst) otherwise. -/
theorem claim_C7 (anos valores : List ℚ) (hlen : anos.length = valores.length)
    (h2 : 2 ≤ anos.length) :
    _trend_slope true anos valores = leastSquaresSlope anos valores ∧
    _trend_slope false anos valores
      = (valores.getLastD 0 - valores.headD 0) / (anos.getLastD 0 - anos.headD 0) := by
  constructor
  · unfold _trend_slope
    rw [if_pos (by simp [h2])]
    exact polyfit_eq_lsq anos valores hlen h2
  · unfold _trend_slope
    rw [if_neg (by simp), if_pos h2]

/-- Claim C7 witness on the series (2019, 4), (2021, 5). -/
theorem claim_C7_witness :
    (([(2019 : ℚ), 2021] : List ℚ).length = ([4, 5] : List ℚ).length ∧
      2 ≤ ([(2019 : ℚ), 2021] : List ℚ).length) ∧
    (_trend_slope true [2019, 2021] [4, 5] = leastSquaresSlope [2019, 2021] [4, 5] ∧
     _trend_slope false [2019, 2021] [4, 5] = (5 - 4) / ((2021 : ℚ) - 2019)) ∧
    _trend_slope true [2019, 2021] [4, 5] = 1 / 2 :=
  ⟨⟨rfl, by decide⟩,
   ⟨(claim_C7 [2019, 2021] [4, 5] rfl (by decide)).1,
    (claim_C7 [2019, 2021] [4, 5] rfl (by decide)).2⟩,
   by decide⟩

/-- Claim C4 witness at 0.655: both forms display "65.5%". -/
theorem claim_C4_witness :
    ((0.0101 : ℚ) < |(0.655 : ℚ)| ∧ |(0.655 : ℚ)| ≤ 1.01) ∧
    _pct (some 0.655) = _pct (some (100 * (0.655 : ℚ))) ∧
    _pct (some 0.655) = "65.5%" :=
  ⟨⟨by decide, by decide⟩, claim_C4 0.655 (by decide) (by decide), by decide⟩

/-- What a successful fetch_censo year loop guarantees: the returned year is
    in the candidate list, its payload is the non-empty response, and every
    earlier candidate year had an empty payload. -/
theorem fetchCensoLoop_spec (net : Net) (ibge : String) (dep loc oferta : ℤ) :
    ∀ (ys : List ℤ) (d : CensoResp) (a : ℤ),
    (fetchCensoLoop net ibge dep loc oferta ys).1 = (some d, a) →
    a ∈ ys ∧ net.censo ibge a dep loc oferta = some d ∧ d.censo.isSome = true ∧
    ∃ pre post, ys = pre ++ a :: post ∧
      ∀ y ∈ pre, censoHit net ibge dep loc oferta y = false := by
  intro ys
  induction ys with
  | nil =>
    intro d a h
    simp [fetchCensoLoop] at h
  | cons y rest ih =>
    intro d a h
    unfold fetchCensoLoop at h
    cases hnet : net.censo ibge y dep loc oferta with
    | some resp =>
      rw [hnet] at h
      dsimp only at h
      cases hc : resp.censo.isSome with
      | true =>
        rw [if_pos hc] at h
        have h2 : ((some resp : Option CensoResp), y) = (some d, a) := h
        simp only [Prod.mk.injEq, Option.some.injEq] at h2
        obtain ⟨hd, ha⟩ := h2
        subst ha
        subst hd
        refine ⟨List.mem_cons_self y rest, hnet, hc, [], rest, rfl, ?_⟩
        intro z hz
        simp at hz
      | false =>
        rw [if_neg (by simp [hc])] at h
        have h2 : (fetchCensoLoop net ibge dep loc oferta rest).1 = (some d, a) := h
        obtain ⟨hmem, hnet2, hcen, pre, post, hsplit, hpre⟩ := ih d a h2
        refine ⟨List.mem_cons_of_mem y hmem, hnet2, hcen, y :: pre, post, by simp [hsplit], ?_⟩
        intro z hz
        rcases List.mem_cons.mp hz with hz | hz
        · subst hz
          unfold censoHit
          rw [hnet]
          exact hc
        · exact hpre z hz
    | none =>
      rw [hnet] at h
      dsimp only at h
      have h2 : (fetchCensoLoop net ibge dep loc oferta rest).1 = (some d, a) := h
      obtain ⟨hmem, hnet2, hcen, pre, post, hsplit, hpre⟩ := ih d a h2
      refine ⟨List.mem_cons_of_mem y hmem, hnet2, hcen, y :: pre, post, by simp [hsplit], ?_⟩
      intro z hz
      rcases List.mem_cons.mp hz with hz | hz
      · subst hz
        unfold censoHit
        rw [hnet]
      · exact hpre z hz

/-- The analogous guarantee for the fetch_infra year loop. -/
theorem fetchInfraLoop_spec (net : Net) (ibge : String) (dep : ℤ) :
    ∀ (ys : List ℤ) (d : List InfraSec) (a : ℤ),
    (fetchInfraLoop net ibge dep ys).1 = (some d, a) →
    a ∈ ys ∧ net.infra ibge dep a = some d ∧ infraHasValues d = true ∧
    ∃ pre post, ys = pre ++ a :: post ∧
      ∀ y ∈ pre, infraHit net ibge dep y = false := by
  intro ys
  induction ys with
  | nil =>
    intro d a h
    simp [fetchInfraLoop] at h
  | cons y rest ih =>
    intro d a h
    unfold fetchInfraLoop at h
    cases hnet : net.infra ibge dep y with
    | some resp =>
      rw [hnet] at h
      dsimp only at h
      cases hc : infraHasValues resp with
      | true =>
        rw [if_pos hc] at h
        have h2 : ((some resp : Option (List InfraSec)), y) = (some d, a) := h
        simp only [Prod.mk.injEq, Option.some.injEq] at h2
        obtain ⟨hd, ha⟩ := h2
        subst ha
        subst hd
        refine ⟨List.mem_cons_self y rest, hnet, hc, [], rest, rfl, ?_⟩
        intro z hz
        simp at hz
      | false =>
        rw [if_neg (by simp [hc])] at h
        have h2 : (fetchInfraLoop net ibge dep rest).1 = (some d, a) := h
        obtain ⟨hmem, hnet2, hval, pre, post, hsplit, hpre⟩ := ih d a h2
        refine ⟨List.mem_cons_of_mem y hmem, hnet2, hval, y :: pre, post, by simp [hsplit], ?_⟩
        intro z hz
        rcases List.mem_cons.mp hz with hz | hz
        · subst hz
          unfold infraHit
          rw [hnet]
          exact hc
        · exact hpre z hz
    | none =>
      rw [hnet] at h
      dsimp only at h
      have h2 : (fetchInfraLoop net ibge dep rest).1 = (some d, a) := h
      obtain ⟨hmem, hnet2, hval, pre, post, hsplit, hpre⟩ := ih d a h2
      refine ⟨List.mem_cons_of_mem y hmem, hnet2, hval, y :: pre, post, by simp [hsplit], ?_⟩
      intro z hz
      rcases List.mem_cons.mp hz with hz | hz
      · subst hz
        unfold infraHit
        rw [hnet]
      · exact hpre z hz

/-- The analogous guarantee for the fetch_taxa year loop: it stops at the
    first truthy response; the reported year is the greatest year found in
    the records, defaulting to the request year. -/
theorem fetchTaxaLoop_spec (net : Net) (ibge : String) (dep : ℤ) (ciclo : String)
    (loc : ℤ) :
    ∀ (ys : List ℤ) (norm : TaxaNorm) (a : ℤ),
    (fetchTaxaLoop net ibge dep ciclo loc ys).1 = (some norm, a) →
    ∃ y raw, y ∈ ys ∧ net.taxa ibge dep y ciclo loc = some raw ∧
      taxaTruthy raw = true ∧ norm = _normalizar_taxa_keys raw ∧
      a = (if taxaAnoReal norm != 0 then taxaAnoReal norm else y) ∧
      ∃ pre post, ys = pre ++ y :: post ∧
        ∀ z ∈ pre, taxaHit net ibge dep ciclo loc z = false := by
  intro ys
  induction ys with
  | nil =>
    intro norm a h
    simp [fetchTaxaLoop] at h
  | cons y rest ih =>
    intro norm a h
    unfold fetchTaxaLoop at h
    cases hnet : net.taxa ibge dep y ciclo loc with
    | some raw =>
      rw [hnet] at h
      dsimp only at h
      cases hc : taxaTruthy raw with
      | true =>
        rw [if_pos hc] at h
        have h2 : ((some (_normalizar_taxa_keys raw) : Option TaxaNorm),
            if taxaAnoReal (_normalizar_taxa_keys raw) != 0 then
              taxaAnoReal (_normalizar_taxa_keys raw) else y) = (some norm, a) := h
        simp only [Prod.mk.injEq, Option.some.injEq] at h2
        obtain ⟨hd, ha⟩ := h2
        subst hd
        refine ⟨y, raw, List.mem_cons_self y rest, hnet, hc, rfl, ha.symm, [], rest, rfl, ?_⟩
        intro z hz
        simp at hz
      | false =>
        rw [if_neg (by simp [hc])] at h
        have h2 : (fetchTaxaLoop net ibge dep ciclo loc rest).1 = (some norm, a) := h
        obtain ⟨w, raw2, hmem, hnet2, ht, hn, ha, pre, post, hsplit, hpre⟩ := ih norm a h2
        refine ⟨w, raw2, List.mem_cons_of_mem y hmem, hnet2, ht, hn, ha, y :: pre, post,
          by simp [hsplit], ?_⟩
        intro z hz
        rcases List.mem_cons.mp hz with hz | hz
        · subst hz
          unfold taxaHit
          rw [hnet]
          exact hc
        · exact hpre z hz
    | none =>
      rw [hnet] at h
      dsimp only at h
      have h2 : (fetchTaxaLoop net ibge dep ciclo loc rest).1 = (some norm, a) := h
      obtain ⟨w, raw2, hmem, hnet2, ht, hn, ha, pre, post, hsplit, hpre⟩ := ih norm a h2
      refine ⟨w, raw2, List.mem_cons_of_mem y hmem, hnet2, ht, hn, ha, y :: pre, post,
        by simp [hsplit], ?_⟩
      intro z hz
      rcases List.mem_cons.mp hz with hz | hz
      · subst hz
        unfold taxaHit
        rw [hnet]
      · exact hpre z hz

/-- Claim C6 counterexample: the exam-proficiency fetch does not walk any
    candidate-year sequence.  Even on a network with no data at all (so a
    biennial fallback would have further years to try), fetch_aprendizado
    issues exactly one request, against the latest-values endpoint, whose
    parameter list carries no "ano" key — there is no year fallback for this
    data category (the helper _anos_saeb exists but no resolver consumes
    it). -/
theorem claim_C6_counterexample :
    fetch_aprendizado noDataNet "2304400" 5 "AI"
      = (none, [aprendReq "2304400" 5 "AI"]) ∧
    (fetch_aprendizado noDataNet "2304400" 5 "AI").2.length = 1 ∧
    (aprendReq "2304400" 5 "AI").params.all (fun p => p.1 != "ano") = true ∧
    _anos_saeb 2026 = [2025, 2023, 2021, 2019, 2017] := by
  refine ⟨rfl, rfl, by decide, by decide⟩

/-- Claim C6 amended: the census, infrastructure and pass/fail resolvers try
    the six candidate years from the current year downward and stop at the
    first non-empty payload, never returning data for a year whose payload
    is empty (fetch_taxa reports the greatest year present in its records,
    defaulting to the request year); exam-proficiency data comes from a
    year-less latest-values endpoint with no year walking. -/
theorem claim_C6 :
    (∀ aa : ℤ, _anos_candidatos aa 6 = [aa, aa - 1, aa - 2, aa - 3, aa - 4, aa - 5]) ∧
    (∀ (net : Net) (aa : ℤ) (ibge : String) (dep loc oferta : ℤ)
       (d : CensoResp) (a : ℤ),
      (fetch_censo net aa ibge dep none loc oferta).1 = (some d, a) →
      a ∈ _anos_candidatos aa 6 ∧ net.censo ibge a dep loc oferta = some d ∧
      d.censo.isSome = true ∧
      ∃ pre post, _anos_candidatos aa 6 = pre ++ a :: post ∧
        ∀ y ∈ pre, censoHit net ibge dep loc oferta y = false) ∧
    (∀ (net : Net) (aa : ℤ) (ibge : String) (dep : ℤ)
       (d : List InfraSec) (a : ℤ),
      (fetch_infra net aa ibge dep none).1 = (some d, a) →
      a ∈ _anos_candidatos aa 6 ∧ net.infra ibge dep a = some d ∧
      infraHasValues d = true ∧
      ∃ pre post, _anos_candidatos aa 6 = pre ++ a :: post ∧
        ∀ y ∈ pre, infraHit net ibge dep y = false) ∧
    (∀ (net : Net) (aa : ℤ) (ibge : String) (ciclo : String) (dep loc : ℤ)
       (norm : TaxaNorm) (a : ℤ),
      (fetch_taxa net aa ibge ciclo dep none loc).1 = (some norm, a) →
      ∃ y raw, y ∈ _anos_candidatos aa 6 ∧ net.taxa ibge dep y ciclo loc = some raw ∧
        taxaTruthy raw = true ∧ norm = _normalizar_taxa_keys raw ∧
        a = (if taxaAnoReal norm != 0 then taxaAnoReal norm else y) ∧
        ∃ pre post, _anos_candidatos aa 6 = pre ++ y :: post ∧
          ∀ z ∈ pre, taxaHit net ibge dep ciclo loc z = false) := by
  refine ⟨?_, ?_, ?_, ?_⟩
  · intro aa
    have hr : List.range 6 = [0, 1, 2, 3, 4, 5] := rfl
    simp [_anos_candidatos, hr]
  · intro net aa ibge dep loc oferta d a h
    exact fetchCensoLoop_spec net ibge dep loc oferta (_anos_candidatos aa 6) d a h
  · intro net aa ibge dep d a h
    exact fetchInfraLoop_spec net ibge dep (_anos_candidatos aa 6) d a h
  · intro net aa ibge ciclo dep loc norm a h
    exact fetchTaxaLoop_spec net ibge dep ciclo loc (_anos_candidatos aa 6) norm a h

/-- Claim C6 witness: a network whose census data exists only two years back
    is resolved to that year, skipping the two empty years. -/
theorem claim_C6_witness :
    (fetch_censo
        { noDataNet with censo := fun _ y _ _ _ =>
            if y ≤ 2024 then some { censo := some {} } else some { censo := none } }
        2026 "2304400" 3 none 0 0).1
      = (some { censo := some {} }, 2024) ∧
    (2024 : ℤ) ∈ _anos_candidatos 2026 6 ∧
    ({ censo := some ({} : CensoData) } : CensoResp).censo.isSome = true :=
  ⟨by decide, by
    have h := (claim_C6.2.1
      { noDataNet with censo := fun _ y _ _ _ =>
          if y ≤ 2024 then some { censo := some {} } else some { censo := none } }
      2026 "2304400" 3 0 0 { censo := some {} } 2024 (by decide))
    exact h.1, rfl⟩

/-- Claim C9: the renderer loop of gerar_todos isolates failures.  The
    bundle always holds one entry per renderer; a renderer that raises
    contributes exactly the inline error placeholder while the entries
    before and after it are exactly what they would be in any run, and the
    structured summary is produced independently of the renderer outcomes. -/
theorem claim_C9 :
    (∀ (slug ibge mun uf : String)
       (gs : List (String × (String → String → String → Except String String))),
      (gerarArquivos slug gs ibge mun uf).length = gs.length) ∧
    (∀ (slug ibge mun uf nome e : String)
       (pre post : List (String × (String → String → String → Except String String)))
       (fn : String → String → String → Except String String),
      fn ibge mun uf = .error e →
      gerarArquivos slug (pre ++ (nome, fn) :: post) ibge mun uf
        = gerarArquivos slug pre ibge mun uf ++
          (slug ++ "_" ++ nome ++ ".txt", "❌ Erro ao gerar " ++ nome ++ ": " ++ e) ::
          gerarArquivos slug post ibge mun uf) ∧
    (∀ (env : Env) (prior : FetchCache Req Unit) (ibge : String),
      (gerar_todos env prior ibge).arquivos
        = gerarArquivos (_slug (descobrir_municipio env ibge).1) (geradoresOf env)
            ibge (descobrir_municipio env ibge).1 (descobrir_municipio env ibge).2 ∧
      (gerar_todos env prior ibge).dados_estruturados
        = coletar_dados_estruturados env ibge (descobrir_municipio env ibge).1
            (descobrir_municipio env ibge).2) := by
  refine ⟨?_, ?_, ?_⟩
  · intro slug ibge mun uf gs
    unfold gerarArquivos
    exact List.length_map gs _
  · intro slug ibge mun uf nome e pre post fn hf
    unfold gerarArquivos
    rw [List.map_append, List.map_cons]
    dsimp only
    rw [hf]
  · intro env prior ibge
    exact ⟨rfl, rfl⟩

/-- Claim C9 witness: a failing censo renderer surrounded by two others. -/
theorem claim_C9_witness :
    ((fun (_ _ _ : String) => (Except.error "boom" : Except String String))
        "1" "m" "u" = Except.error "boom") ∧
    gerarArquivos "s"
        ([("aprendizado", fun _ _ _ => Except.ok "A")] ++
          ("censo", fun (_ _ _ : String) => (Except.error "boom" : Except String String)) ::
          [("ideb", fun _ _ _ => Except.ok "I")]) "1" "m" "u"
      = gerarArquivos "s" [("aprendizado", fun _ _ _ => Except.ok "A")] "1" "m" "u" ++
        ("s" ++ "_" ++ "censo" ++ ".txt", "❌ Erro ao gerar " ++ "censo" ++ ": " ++ "boom") ::
        gerarArquivos "s" [("ideb", fun _ _ _ => Except.ok "I")] "1" "m" "u" :=
  ⟨rfl, claim_C9.2.1 "s" "1" "m" "u" "censo" "boom"
    [("aprendizado", fun _ _ _ => Except.ok "A")]
    [("ideb", fun _ _ _ => Except.ok "I")]
    (fun _ _ _ => Except.error "boom") rfl⟩

/-- A positive boolean substring scan yields an explicit decomposition. -/
theorem listHasSub_exists (pat : List Char) (l : List Char)
    (h : listHasSub pat l = true) : ∃ p q, l = p ++ (pat ++ q) := by
  induction l with
  | nil =>
    simp only [listHasSub] at h
    have hp : pat <+: ([] : List Char) := List.isPrefixOf_iff_prefix.1 h
    rcases hp with ⟨t, ht⟩
    exact ⟨[], t, by simp [← ht]⟩
  | cons c rest ih =>
    simp only [listHasSub, Bool.or_eq_true] at h
    rcases h with h | h
    · have hp : pat <+: (c :: rest) := List.isPrefixOf_iff_prefix.1 h
      rcases hp with ⟨t, ht⟩
      exact ⟨[], t, by simp [← ht]⟩
    · rcases ih h with ⟨p, q, hpq⟩
      exact ⟨c :: p, q, by simp [hpq]⟩

/-- Finding pat inside a character window of s finds it in s: lets a long
    report text be scanned only around the relevant position. -/
theorem hasSub_of_window (n m : ℕ) (s pat : String)
    (h : strHasSub (strTake m (strDrop n s)) pat = true) : HasSub s pat := by
  have h2 := listHasSub_exists pat.data ((s.data.drop n).take m) h
  rcases h2 with ⟨p, q, hpq⟩
  refine ⟨String.mk (s.data.take n ++ p), String.mk (q ++ (s.data.drop n).drop m), ?_⟩
  cases s with
  | mk l =>
    cases pat with
    | mk lp =>
      show String.mk l = String.mk ((l.take n ++ p) ++ (lp ++ (q ++ (l.drop n).drop m)))
      have key : l = l.take n ++ ((l.drop n).take m ++ (l.drop n).drop m) := by
        rw [List.take_append_drop, List.take_append_drop]
      rw [hpq] at key
      conv_lhs => rw [key]
      simp [List.append_assoc]

/-- Claim C1 (amended): for any all-digit code of length 2 or 7, in a run
    where every remote fetch returns no data and the local reference tables
    are absent, gerar_todos still returns exactly the five named report
    texts, each containing the no-data placeholder marker, plus the
    structured summary with its entity header and no data sections.  (The
    original claim, quantified over runs with data in the local IDEB tables,
    fails: see the counterexample.) -/
theorem claim_C1 (aa : ℤ) (ge : String) (np : Bool) (prior : FetchCache Req Unit)
    (ibge : String) (h1 : pyIsdigit ibge = true)
    (h2 : ibge.length = 2 ∨ ibge.length = 7) :
    (gerar_todos (noDataEnv aa ge np) prior ibge).arquivos.map Prod.fst =
      [_slug (gerar_todos (noDataEnv aa ge np) prior ibge).municipio ++ "_" ++ "aprendizado" ++ ".txt",
       _slug (gerar_todos (noDataEnv aa ge np) prior ibge).municipio ++ "_" ++ "infra" ++ ".txt",
       _slug (gerar_todos (noDataEnv aa ge np) prior ibge).municipio ++ "_" ++ "censo" ++ ".txt",
       _slug (gerar_todos (noDataEnv aa ge np) prior ibge).municipio ++ "_" ++ "ideb" ++ ".txt",
       _slug (gerar_todos (noDataEnv aa ge np) prior ibge).municipio ++ "_" ++ "taxa_rendimento" ++ ".txt"] ∧
    (gerar_todos (noDataEnv aa ge np) prior ibge).arquivos.length = 5 ∧
    (∀ t ∈ (gerar_todos (noDataEnv aa ge np) prior ibge).arquivos.map Prod.snd,
      HasSub t "Sem dados") ∧
    (gerar_todos (noDataEnv aa ge np) prior ibge).dados_estruturados =
      { entidade := (gerar_todos (noDataEnv aa ge np) prior ibge).municipio
      , uf := (gerar_todos (noDataEnv aa ge np) prior ibge).uf
      , tipo := if is_estado ibge then "estado" else "municipio"
      , aprendizado := none, censo := none, infra := none
      , taxa_rendimento := none } := by
  refine ⟨rfl, rfl, ?_, rfl⟩
  have harq : (gerar_todos (noDataEnv aa ge np) prior ibge).arquivos.map Prod.snd =
      [_hdr "RELATÓRIO COMPLETO DE APRENDIZADO - DADOS QEDU"
          (gerar_todos (noDataEnv aa ge np) prior ibge).municipio ge none none none none
        ++ ("\n  ⚠️ Sem dados de aprendizado disponíveis.\n" ++ _footer "QEdu (qedu.org.br)"),
       _hdr "RELATÓRIO DE INFRAESTRUTURA ESCOLAR - DADOS QEDU"
          (gerar_todos (noDataEnv aa ge np) prior ibge).municipio ge none none (some "N/D") none
        ++ ("\n  ⚠️ Sem dados.\n" ++ _footer "QEdu (qedu.org.br)"),
       _hdr "RELATÓRIO DO CENSO ESCOLAR - DADOS QEDU"
          (gerar_todos (noDataEnv aa ge np) prior ibge).municipio ge none none none none
        ++ ("\n  ⚠️ Sem dados.\n" ++ _footer "QEdu (qedu.org.br)"),
       _hdr "RELATÓRIO DE ANÁLISE IDEB"
          (gerar_todos (noDataEnv aa ge np) prior ibge).municipio ge none none none none
        ++ ("\n  ⚠️ Sem dados IDEB disponíveis.\n" ++ _footer "IDEB/SAEB - INEP/MEC"),
       _hdr "RELATÓRIO DE TAXAS DE RENDIMENTO - DADOS QEDU"
          (gerar_todos (noDataEnv aa ge np) prior ibge).municipio ge none none none none
        ++ ("\n  ⚠️ Sem dados.\n" ++ _footer "QEdu (qedu.org.br)")] := rfl
  rw [harq]
  intro t ht
  simp only [List.mem_cons, List.not_mem_nil, or_false] at ht
  rcases ht with h | h | h | h | h <;> subst h
  · exact hasSub_left _ _ _ (hasSub_right _ _ _
      ⟨"\n  ⚠️ ", " de aprendizado disponíveis.\n", rfl⟩)
  · exact hasSub_left _ _ _ (hasSub_right _ _ _ ⟨"\n  ⚠️ ", ".\n", rfl⟩)
  · exact hasSub_left _ _ _ (hasSub_right _ _ _ ⟨"\n  ⚠️ ", ".\n", rfl⟩)
  · exact hasSub_left _ _ _ (hasSub_right _ _ _
      ⟨"\n  ⚠️ ", " IDEB disponíveis.\n", rfl⟩)
  · exact hasSub_left _ _ _ (hasSub_right _ _ _ ⟨"\n  ⚠️ ", ".\n", rfl⟩)

/-- Claim C1 witness: the no-data run on the valid 2-digit state code 35. -/
theorem claim_C1_witness :
    pyIsdigit "35" = true ∧
    (gerar_todos (noDataEnv 2026 "01/01/2026 00:00" false) [] "35").arquivos.length = 5 ∧
    HasSub (((gerar_todos (noDataEnv 2026 "01/01/2026 00:00" false) [] "35").arquivos.map
      Prod.snd).getD 0 "") "Sem dados" := by
  have h := claim_C1 2026 "01/01/2026 00:00" false [] "35" (by decide)
    (Or.inl (by decide))
  refine ⟨by decide, h.2.1, ?_⟩
  exact h.2.2.1 _ (List.mem_cons_self _ _)

/-- Claim C1 counterexample: in the envCE run every remote fetch returns no
    data, yet the generated ideb report (built from the local reference
    tables, which do have rows for this municipality) contains no no-data
    placeholder at all, contradicting the claim that in such a run each
    report text contains one. -/
theorem claim_C1_counterexample :
    envCE.net = noDataNet ∧
    ((gerar_todos envCE [] "2304400").arquivos.map Prod.fst).getD 3 "" = "Fortaleza_ideb.txt" ∧
    strHasSub (((gerar_todos envCE [] "2304400").arquivos.map Prod.snd).getD 3 "")
      "Sem dados" = false ∧
    strHasSub (((gerar_todos envCE [] "2304400").arquivos.map Prod.snd).getD 3 "")
      "sem dados" = false ∧
    strHasSub (((gerar_todos envCE [] "2304400").arquivos.map Prod.snd).getD 3 "")
      "N/D" = false :=
  ⟨rfl, by decide, by decide, by decide, by decide⟩

/-- Claim C5 (amended): the dedicated display helpers do render a missing
    value as an explicit sentinel (_pct, _pp and _safe_taxa as "sem dados",
    _val and the missing-row cell as "N/D", the classifiers as their
    no-data labels), but the PARTE 1 evolution-table cell of the
    aprendizado report renders a missing metric as the zero string, so a
    missing value is not never rendered as a zero.  (The original claim
    fails at that cell: see the counterexample.) -/
theorem claim_C5 (d : ℕ) (tipo : String) :
    _pct none = "sem dados" ∧
    _pp none d = "sem dados" ∧
    _val none d = "N/D" ∧
    _safe_taxa none = "sem dados" ∧
    _valPy none = "N/D" ∧
    _classificar_desempenho none = ("Dados não disponíveis", "⚪") ∧
    _classificar_taxa none tipo = ("Sem dados", "⚪") ∧
    parte1Cell none = "   0.0%" :=
  ⟨rfl, rfl, rfl, rfl, rfl, rfl, rfl, by decide⟩

/-- Claim C5 witness: the sentinel equations at two decimals and the
    abandono rate type. -/
theorem claim_C5_witness :
    _pct none = "sem dados" ∧ parte1Cell none = "   0.0%" := by
  have h := claim_C5 2 "abandono"
  exact ⟨h.1, h.2.2.2.2.2.2.2⟩

/-- Claim C5 counterexample: in the envC5 run the municipal record has no
    lp_basico value, yet the aprendizado report renders that metric in the
    PARTE 1 evolution table as the zero cell, while the same metric appears
    as the "sem dados" sentinel further down the same report. -/
theorem claim_C5_counterexample :
    recC5.lp_basico = none ∧
    HasSub (((gerar_todos envC5 [] "3550308").arquivos.map Prod.snd).getD 0 "")
      (padLeft 18 "Língua Portuguesa" ++ " " ++ padLeft 40 "Básico" ++ " " ++
       "   0.0%" ++ " " ++ padLeft 10 "" ++ "\n") ∧
    HasSub (((gerar_todos envC5 [] "3550308").arquivos.map Prod.snd).getD 0 "")
      "- Básico: sem dados" :=
  ⟨rfl, hasSub_of_window 850 150 _ _ (by decide),
    hasSub_of_window 4400 60 _ _ (by decide)⟩

end ApiQedu
